import Mathlib

/-!
# OP-Stack chain configuration and genesis loading (`params/superchain.go`)

A shallow embedding of `LoadOPStackChainConfig`, `LoadOPStackGenesis` and
`SystemConfigAddr`.

* Go pointers (`*big.Int`, `*uint64`, `*OptimismConfig`, ...) are `Option`s, `nil` is `none`.
* `big.Int` is `Int`; `uint64` is `Nat` (the code does no arithmetic on them).
* `[32]byte` and `[20]byte` are byte lists of that length.
* A Go result `(*T, error)` is `Except LoadError T`: `.error e` is `(nil, e)`,
  `.ok v` is `(v, nil)`.
* The two package-level maps of the superchain registry are lookup functions.
* `genesis.ToBlock().Hash()` is a function parameter `blockHash`.
-/

namespace Superchain

/-! ## Basic types -/

/-- One byte. -/
abbrev Byte := Fin 256

/-- Go `common.Hash` and `superchain.Hash`: `[32]byte`. -/
abbrev Hash := { bs : List Byte // bs.length = 32 }

/-- Go `common.Address` and `superchain.Address`: `[20]byte`. -/
abbrev Address := { bs : List Byte // bs.length = 20 }

/-- Go `common.Hash{}`: the all-zero hash. -/
def Hash.zero : Hash := ⟨List.replicate 32 0, rfl⟩

/-- Go `common.Address{}`: the all-zero address. -/
def Address.zero : Address := ⟨List.replicate 20 0, rfl⟩

/-! ## The superchain registry (package `superchain`) -/

/-- Registry type `superchain.BlockID`. -/
structure BlockID where
  Hash : Hash
  Number : Nat
deriving DecidableEq

/-- Registry type `superchain.ChainGenesis`; `ExtraData` is a `*HexBytes`. -/
structure ChainGenesis where
  L1 : BlockID
  L2 : BlockID
  L2Time : Nat
  ExtraData : Option (List Byte)
deriving DecidableEq

/-- Registry type `superchain.ChainConfig`, the value type of `superchain.OPChains`:
the fields read by `superchain.go` and the chain's name and ID. -/
structure OPChainConfig where
  Name : String
  ChainID : Nat
  SystemConfigAddr : Address
  Genesis : ChainGenesis
  Superchain : String
deriving DecidableEq

/-- Registry type `superchain.SuperchainConfig`; `superchain.go` reads it and discards it. -/
structure SuperchainConfig where
  Name : String
deriving DecidableEq

/-- Registry type `superchain.Superchain`, the value type of `superchain.Superchains`. -/
structure SuperchainEntry where
  Config : SuperchainConfig
  ChainIDs : List Nat
  Superchain : String
deriving DecidableEq

/-- The two package-level maps `superchain.OPChains` (keyed by chain ID) and
`superchain.Superchains` (keyed by superchain name); a lookup that gives `none` is
Go's `ok == false`. -/
structure Registry where
  OPChains : Nat → Option OPChainConfig
  Superchains : String → Option SuperchainEntry

/-! ## Package `params` and `core` types -/

/-- Go `params.OptimismConfig`. -/
structure OptimismConfig where
  EIP1559Elasticity : Nat
  EIP1559Denominator : Nat
deriving DecidableEq

/-- Go `params.CliqueConfig`. -/
structure CliqueConfig where
  Period : Nat
  Epoch : Nat
deriving DecidableEq

/-- Go `params.ChainConfig`, with the fields that `LoadOPStackChainConfig` sets, in the
order of its struct literal. `Ethash` is a pointer to an empty struct. -/
structure ChainConfig where
  ChainID : Option Int
  HomesteadBlock : Option Int
  DAOForkBlock : Option Int
  DAOForkSupport : Bool
  EIP150Block : Option Int
  EIP155Block : Option Int
  EIP158Block : Option Int
  ByzantiumBlock : Option Int
  ConstantinopleBlock : Option Int
  PetersburgBlock : Option Int
  IstanbulBlock : Option Int
  MuirGlacierBlock : Option Int
  BerlinBlock : Option Int
  LondonBlock : Option Int
  ArrowGlacierBlock : Option Int
  GrayGlacierBlock : Option Int
  MergeNetsplitBlock : Option Int
  ShanghaiTime : Option Nat
  CancunTime : Option Nat
  PragueTime : Option Nat
  BedrockBlock : Option Int
  RegolithTime : Option Nat
  TerminalTotalDifficulty : Option Int
  TerminalTotalDifficultyPassed : Bool
  Ethash : Option Unit
  Clique : Option CliqueConfig
  Optimism : Option OptimismConfig
deriving DecidableEq

/-- Go `core.GenesisAccount`. -/
structure GenesisAccount where
  Code : List Byte
  Storage : List (Hash × Hash)
  Balance : Option Int
  Nonce : Nat
deriving DecidableEq

/-- Go `core.Genesis`, with the fields that `LoadOPStackGenesis` sets, in the order of its
struct literal. `Alloc` is a map, `none` is the nil map. -/
structure Genesis where
  Config : Option ChainConfig
  Nonce : Nat
  Timestamp : Nat
  ExtraData : List Byte
  GasLimit : Nat
  Difficulty : Option Int
  Mixhash : Hash
  Coinbase : Address
  Alloc : Option (List (Address × GenesisAccount))
  Number : Nat
  GasUsed : Nat
  ParentHash : Hash
  BaseFee : Option Int
deriving DecidableEq

/-- The package-level variables `params.OptimismGoerliRegolithTime` and
`params.BaseGoerliRegolithTime` (both `uint64`), declared outside `superchain.go`. -/
structure RegolithTimes where
  OptimismGoerliRegolithTime : Nat
  BaseGoerliRegolithTime : Nat
deriving DecidableEq

/-- The errors built by `fmt.Errorf` in `superchain.go`, one constructor per format string,
holding the operands that the format string prints.

* `unknownChain id`: `"unknown chain ID: %d"`.
* `unknownSuperchain name`: `"unknown superchain %q: %w"`; the call passes the name only, so
  no error is wrapped.
* `failedToLoadChainConfig id err`:
  `"failed to load params.ChainConfig for chain %d: %w"`, wrapping `err`.
* `extraDataTooLarge n`:
  `"chain must have 32 bytes or less extra-data in genesis, got %d"`.
* `genesisHashMismatch computed expected`:
  `"produced genesis with hash %s but expected %s"`. -/
inductive LoadError where
  | unknownChain (chainID : Nat)
  | unknownSuperchain (superchain : String)
  | failedToLoadChainConfig (chainID : Nat) (err : LoadError)
  | extraDataTooLarge (len : Nat)
  | genesisHashMismatch (computed : Hash) (expected : Hash)
deriving DecidableEq

/-- Equality of results is decidable, so that results can be compared by evaluation. -/
instance instDecidableEqExcept {ε α : Type} [DecidableEq ε] [DecidableEq α] :
    DecidableEq (Except ε α)
  | .ok a, .ok b => if h : a = b then isTrue (by rw [h]) else isFalse (by simp [h])
  | .error a, .error b => if h : a = b then isTrue (by rw [h]) else isFalse (by simp [h])
  | .ok _, .error _ => isFalse (by simp)
  | .error _, .ok _ => isFalse (by simp)

/-- Go `common.Big0`. -/
def Big0 : Option Int := some 0

/-- Go `[]byte("BEDROCK")`. -/
def bedrockExtraData : List Byte := [66, 69, 68, 82, 79, 67, 75]

/-! ## `LoadOPStackChainConfig` -/

/-- Go `LoadOPStackChainConfig` (lines 12-82). -/
def LoadOPStackChainConfig (reg : Registry) (rt : RegolithTimes) (chainID : Nat) :
    Except LoadError ChainConfig :=
  match reg.OPChains chainID with
  | none => .error (.unknownChain chainID)
  | some chConfig =>
    match reg.Superchains chConfig.Superchain with
    | none => .error (.unknownSuperchain chConfig.Superchain)
    | some superchainConfig =>
      let genesisActivation : Nat := 0
      let out : ChainConfig :=
        { ChainID := some (Int.ofNat chainID)
          HomesteadBlock := Big0
          DAOForkBlock := none
          DAOForkSupport := false
          EIP150Block := Big0
          EIP155Block := Big0
          EIP158Block := Big0
          ByzantiumBlock := Big0
          ConstantinopleBlock := Big0
          PetersburgBlock := Big0
          IstanbulBlock := Big0
          MuirGlacierBlock := Big0
          BerlinBlock := Big0
          LondonBlock := Big0
          ArrowGlacierBlock := Big0
          GrayGlacierBlock := Big0
          MergeNetsplitBlock := Big0
          ShanghaiTime := none
          CancunTime := none
          PragueTime := none
          BedrockBlock := Big0
          RegolithTime := some genesisActivation
          TerminalTotalDifficulty := Big0
          TerminalTotalDifficultyPassed := true
          Ethash := none
          Clique := none
          Optimism := some { EIP1559Elasticity := 6, EIP1559Denominator := 50 } }
      -- `_ = superchainConfig.Config`: read and discarded
      let _unused := superchainConfig.Config
      if chainID = 420 then
        .ok { out with
          LondonBlock := some 4061224
          ArrowGlacierBlock := some 4061224
          GrayGlacierBlock := some 4061224
          MergeNetsplitBlock := some 4061224
          BedrockBlock := some 4061224
          RegolithTime := some rt.OptimismGoerliRegolithTime
          Optimism := out.Optimism.map fun o => { o with EIP1559Elasticity := 10 } }
      else if chainID = 10 then
        .ok { out with
          BerlinBlock := some 3950000
          LondonBlock := some 105235063
          ArrowGlacierBlock := some 105235063
          GrayGlacierBlock := some 105235063
          MergeNetsplitBlock := some 105235063
          BedrockBlock := some 105235063 }
      else if chainID = 84531 then
        .ok { out with RegolithTime := some rt.BaseGoerliRegolithTime }
      else
        .ok out

/-! ## `LoadOPStackGenesis` -/

/-- Go `LoadOPStackGenesis` (lines 84-130). `blockHash genesis` is
`genesis.ToBlock().Hash()`. -/
def LoadOPStackGenesis (reg : Registry) (rt : RegolithTimes) (blockHash : Genesis → Hash)
    (chainID : Nat) : Except LoadError Genesis :=
  match reg.OPChains chainID with
  | none => .error (.unknownChain chainID)
  | some chConfig =>
    match LoadOPStackChainConfig reg rt chainID with
    | .error err => .error (.failedToLoadChainConfig chainID err)
    | .ok cfg =>
      let genesis : Genesis :=
        { Config := some cfg
          Nonce := 0
          Timestamp := chConfig.Genesis.L2Time
          ExtraData := bedrockExtraData
          GasLimit := 30000000
          Difficulty := none
          Mixhash := Hash.zero
          Coinbase := Address.zero
          Alloc := none
          Number := 0
          GasUsed := 0
          ParentHash := Hash.zero
          BaseFee := none }
      -- lines 123-129: recompute the hash of the genesis block and compare
      let verify (genesis : Genesis) : Except LoadError Genesis :=
        let genesisBlockHash := blockHash genesis
        if chConfig.Genesis.L2.Hash ≠ genesisBlockHash then
          .error (.genesisHashMismatch genesisBlockHash chConfig.Genesis.L2.Hash)
        else
          .ok genesis
      match chConfig.Genesis.ExtraData with
      | some extraData =>
        let genesis := { genesis with ExtraData := extraData }
        if genesis.ExtraData.length > 32 then
          .error (.extraDataTooLarge genesis.ExtraData.length)
        else
          verify genesis
      | none => verify genesis

/-! ## `SystemConfigAddr` -/

/-- Go `SystemConfigAddr` (lines 132-141): the pair `(address, error)`, `none` being the
nil error. -/
def SystemConfigAddr (reg : Registry) (chainID : Nat) : Address × Option LoadError :=
  match reg.OPChains chainID with
  | none => (Address.zero, some (.unknownChain chainID))
  | some chConfig => (chConfig.SystemConfigAddr, none)

/-- The value of the local variable `genesis` of `LoadOPStackGenesis` when line 123 is
reached: the struct literal of lines 95-109 with the extra-data replaced by the registry's
override when there is one (lines 115-116). -/
def candidateGenesis (cfg : ChainConfig) (chConfig : OPChainConfig) : Genesis :=
  { Config := some cfg
    Nonce := 0
    Timestamp := chConfig.Genesis.L2Time
    ExtraData :=
      match chConfig.Genesis.ExtraData with
      | some extraData => extraData
      | none => bedrockExtraData
    GasLimit := 30000000
    Difficulty := none
    Mixhash := Hash.zero
    Coinbase := Address.zero
    Alloc := none
    Number := 0
    GasUsed := 0
    ParentHash := Hash.zero
    BaseFee := none }

/-- The block-number fork activations of a config in historical deployment order. -/
def forkBlocks (c : ChainConfig) : List (Option Int) :=
  [c.HomesteadBlock, c.EIP150Block, c.EIP155Block, c.EIP158Block, c.ByzantiumBlock,
   c.ConstantinopleBlock, c.PetersburgBlock, c.IstanbulBlock, c.MuirGlacierBlock,
   c.BerlinBlock, c.LondonBlock, c.ArrowGlacierBlock, c.GrayGlacierBlock,
   c.MergeNetsplitBlock, c.BedrockBlock]

/-! ## A small registry for concrete evaluation -/

/-- A hash with every byte equal to `b`. -/
def Hash.fill (b : Byte) : Hash := ⟨List.replicate 32 b, by simp⟩

/-- A registry entry for chain `id` in superchain `sc` with the given extra-data override;
the expected genesis hash is all `0x11`. -/
def sampleChain (id : Nat) (sc : String) (extraData : Option (List Byte)) : OPChainConfig :=
  { Name := "sample"
    ChainID := id
    SystemConfigAddr := ⟨List.replicate 20 7, rfl⟩
    Genesis :=
      { L1 := ⟨Hash.zero, 0⟩
        L2 := ⟨Hash.fill 17, 0⟩
        L2Time := 1686068903
        ExtraData := extraData }
    Superchain := sc }

/-- Chains 10, 420, 84531 and 7 are registered in the registered superchain `"mainnet"`;
chain 8 is registered in the superchain `"ghost"`, which is not registered; chain 9 has a
33-byte extra-data override and chain 11 a 2-byte one. -/
def sampleRegistry : Registry where
  OPChains := fun id =>
    if id = 10 ∨ id = 420 ∨ id = 84531 ∨ id = 7 then some (sampleChain id "mainnet" none)
    else if id = 8 then some (sampleChain 8 "ghost" none)
    else if id = 9 then some (sampleChain 9 "mainnet" (some (List.replicate 33 0)))
    else if id = 11 then some (sampleChain 11 "mainnet" (some [1, 2]))
    else none
  Superchains := fun name =>
    if name = "mainnet" then some ⟨⟨"mainnet"⟩, [10, 420, 84531, 7, 9, 11], "mainnet"⟩
    else none

/-- Sample values of the two Regolith time variables. -/
def sampleTimes : RegolithTimes := ⟨1679079600, 1683219600⟩

/-- A hash function that tells genesis values apart by their gas limit and extra-data
length: all `0x11` for gas limit 30000000 and the 7-byte extra-data, all `0x22` otherwise. -/
def sampleHash (g : Genesis) : Hash :=
  if g.GasLimit = 30000000 ∧ g.ExtraData.length = 7 then Hash.fill 17 else Hash.fill 34

/-- The chain ID that an error message prints: the `%d` operand of
`"unknown chain ID: %d"` and of `"failed to load params.ChainConfig for chain %d: %w"`.
The other three format strings have no chain-ID operand. -/
def LoadError.printedChainID : LoadError → Option Nat
  | .unknownChain chainID => some chainID
  | .unknownSuperchain _ => none
  | .failedToLoadChainConfig chainID _ => some chainID
  | .extraDataTooLarge _ => none
  | .genesisHashMismatch _ _ => none

/-- A second registry: chain 7 only, registered in the superchain `"testnet"`, with another
genesis time, extra-data, expected hash, system-config address and superchain config than
in `sampleRegistry`. -/
def otherRegistry : Registry where
  OPChains := fun id =>
    if id = 7 then
      some
        { Name := "other"
          ChainID := 7
          SystemConfigAddr := ⟨List.replicate 20 9, rfl⟩
          Genesis :=
            { L1 := ⟨Hash.fill 1, 5⟩
              L2 := ⟨Hash.fill 51, 3⟩
              L2Time := 42
              ExtraData := some [9, 9, 9] }
          Superchain := "testnet" }
    else none
  Superchains := fun name =>
    if name = "testnet" then some ⟨⟨"testnet-config"⟩, [7], "testnet"⟩ else none

/-! ## `LoadOPStackChainConfig` on explicit memory

The definitions above read a returned config by value. The Go function returns pointers, and
some of them point into package-level state: `common.Big0` (lines 25-46) and the addresses
of `OptimismGoerliRegolithTime` (line 68) and `BaseGoerliRegolithTime` (line 78). The
definitions below keep the pointers and pass the memory explicitly. -/

/-- A Go `*big.Int`: the pointer held by the package variable `common.Big0`, or the address
of a `big.Int` allocated by `new(big.Int)` or `big.NewInt`. -/
inductive BigIntPtr where
  | Big0
  | heap (addr : Nat)
deriving DecidableEq

/-- A Go `*uint64`: the address of one of the two package variables, or the address of a
local variable that escapes. -/
inductive Uint64Ptr where
  | OptimismGoerliRegolithTime
  | BaseGoerliRegolithTime
  | heap (addr : Nat)
deriving DecidableEq

/-- The memory that `LoadOPStackChainConfig` can read or write: the package-level state (the
two registry maps, the two Regolith variables, the `big.Int` behind `common.Big0`) and the
heap objects reachable from returned configs; an address is an index into its list. -/
structure Memory where
  reg : Registry
  rt : RegolithTimes
  Big0 : Int
  bigInts : List Int
  uint64s : List Nat
  optimismConfigs : List OptimismConfig

/-- Go `params.ChainConfig` as the function builds it, pointer fields kept as pointers;
`Optimism` is the address of an `OptimismConfig`. -/
structure ChainConfigRef where
  ChainID : Option BigIntPtr
  HomesteadBlock : Option BigIntPtr
  DAOForkBlock : Option BigIntPtr
  DAOForkSupport : Bool
  EIP150Block : Option BigIntPtr
  EIP155Block : Option BigIntPtr
  EIP158Block : Option BigIntPtr
  ByzantiumBlock : Option BigIntPtr
  ConstantinopleBlock : Option BigIntPtr
  PetersburgBlock : Option BigIntPtr
  IstanbulBlock : Option BigIntPtr
  MuirGlacierBlock : Option BigIntPtr
  BerlinBlock : Option BigIntPtr
  LondonBlock : Option BigIntPtr
  ArrowGlacierBlock : Option BigIntPtr
  GrayGlacierBlock : Option BigIntPtr
  MergeNetsplitBlock : Option BigIntPtr
  ShanghaiTime : Option Uint64Ptr
  CancunTime : Option Uint64Ptr
  PragueTime : Option Uint64Ptr
  BedrockBlock : Option BigIntPtr
  RegolithTime : Option Uint64Ptr
  TerminalTotalDifficulty : Option BigIntPtr
  TerminalTotalDifficultyPassed : Bool
  Ethash : Option Unit
  Clique : Option CliqueConfig
  Optimism : Option Nat
deriving DecidableEq

/-- Go `out.Optimism.EIP1559Elasticity = v`, a write through the pointer `addr`. -/
def Memory.setEIP1559Elasticity (addr : Nat) (v : Nat) (m : Memory) : Memory :=
  match m.optimismConfigs[addr]? with
  | some o =>
    { m with optimismConfigs := m.optimismConfigs.set addr { o with EIP1559Elasticity := v } }
  | none => m

/-- The `big.Int` value behind a pointer. -/
def Memory.readBigInt (m : Memory) : BigIntPtr → Option Int
  | .Big0 => some m.Big0
  | .heap addr => m.bigInts[addr]?

/-- The `uint64` value behind a pointer. -/
def Memory.readUint64 (m : Memory) : Uint64Ptr → Option Nat
  | .OptimismGoerliRegolithTime => some m.rt.OptimismGoerliRegolithTime
  | .BaseGoerliRegolithTime => some m.rt.BaseGoerliRegolithTime
  | .heap addr => m.uint64s[addr]?

/-- The `big.Int` value of a pointer field, a nil pointer giving `none`. -/
@[noinline] def Memory.loadBigInt (m : Memory) (p : Option BigIntPtr) : Option Int :=
  p.bind m.readBigInt

/-- The `uint64` value of a pointer field, a nil pointer giving `none`. -/
@[noinline] def Memory.loadUint64 (m : Memory) (p : Option Uint64Ptr) : Option Nat :=
  p.bind m.readUint64

/-- The `OptimismConfig` struct of a pointer field, a nil pointer giving `none`. -/
@[noinline] def Memory.loadOptimismConfig (m : Memory) (p : Option Nat) :
    Option OptimismConfig :=
  p.bind fun addr => m.optimismConfigs[addr]?

/-- The config read field by field through its pointers. -/
def ChainConfigRef.load (m : Memory) (c : ChainConfigRef) : ChainConfig :=
  { ChainID := m.loadBigInt c.ChainID
    HomesteadBlock := m.loadBigInt c.HomesteadBlock
    DAOForkBlock := m.loadBigInt c.DAOForkBlock
    DAOForkSupport := c.DAOForkSupport
    EIP150Block := m.loadBigInt c.EIP150Block
    EIP155Block := m.loadBigInt c.EIP155Block
    EIP158Block := m.loadBigInt c.EIP158Block
    ByzantiumBlock := m.loadBigInt c.ByzantiumBlock
    ConstantinopleBlock := m.loadBigInt c.ConstantinopleBlock
    PetersburgBlock := m.loadBigInt c.PetersburgBlock
    IstanbulBlock := m.loadBigInt c.IstanbulBlock
    MuirGlacierBlock := m.loadBigInt c.MuirGlacierBlock
    BerlinBlock := m.loadBigInt c.BerlinBlock
    LondonBlock := m.loadBigInt c.LondonBlock
    ArrowGlacierBlock := m.loadBigInt c.ArrowGlacierBlock
    GrayGlacierBlock := m.loadBigInt c.GrayGlacierBlock
    MergeNetsplitBlock := m.loadBigInt c.MergeNetsplitBlock
    ShanghaiTime := m.loadUint64 c.ShanghaiTime
    CancunTime := m.loadUint64 c.CancunTime
    PragueTime := m.loadUint64 c.PragueTime
    BedrockBlock := m.loadBigInt c.BedrockBlock
    RegolithTime := m.loadUint64 c.RegolithTime
    TerminalTotalDifficulty := m.loadBigInt c.TerminalTotalDifficulty
    TerminalTotalDifficultyPassed := c.TerminalTotalDifficultyPassed
    Ethash := c.Ethash
    Clique := c.Clique
    Optimism := m.loadOptimismConfig c.Optimism }

/-- A result of the function read in memory `m`: the error, or the config by value. -/
def loadResult (m : Memory) : Except LoadError ChainConfigRef → Except LoadError ChainConfig
  | .error err => .error err
  | .ok c => .ok (c.load m)

/-- Go `LoadOPStackChainConfig` (lines 12-82) on explicit memory: the result with its
pointers, and the memory after the call.

An object that the call allocates is appended to its heap, so the objects get the next free
addresses in the order of allocation: the local `genesisActivation` of line 22, whose address
is taken at line 45; the `big.Int` of line 24 and then those of `big.NewInt` in the switch;
the `OptimismConfig` of lines 50-53. The only write through a pointer is line 69. -/
def LoadOPStackChainConfigOnMemory (chainID : Nat) (m : Memory) :
    Except LoadError ChainConfigRef × Memory :=
  match m.reg.OPChains chainID with
  | none => (.error (.unknownChain chainID), m)
  | some chConfig =>
    match m.reg.Superchains chConfig.Superchain with
    | none => (.error (.unknownSuperchain chConfig.Superchain), m)
    | some superchainConfig =>
      let genesisActivation : Uint64Ptr := .heap m.uint64s.length
      let chainIDInt : BigIntPtr := .heap m.bigInts.length
      let optimism : Nat := m.optimismConfigs.length
      let out : ChainConfigRef :=
        { ChainID := some chainIDInt
          HomesteadBlock := some .Big0
          DAOForkBlock := none
          DAOForkSupport := false
          EIP150Block := some .Big0
          EIP155Block := some .Big0
          EIP158Block := some .Big0
          ByzantiumBlock := some .Big0
          ConstantinopleBlock := some .Big0
          PetersburgBlock := some .Big0
          IstanbulBlock := some .Big0
          MuirGlacierBlock := some .Big0
          BerlinBlock := some .Big0
          LondonBlock := some .Big0
          ArrowGlacierBlock := some .Big0
          GrayGlacierBlock := some .Big0
          MergeNetsplitBlock := some .Big0
          ShanghaiTime := none
          CancunTime := none
          PragueTime := none
          BedrockBlock := some .Big0
          RegolithTime := some genesisActivation
          TerminalTotalDifficulty := some .Big0
          TerminalTotalDifficultyPassed := true
          Ethash := none
          Clique := none
          Optimism := some optimism }
      -- the memory once `out` is built (line 54)
      let built : Memory :=
        { m with
          uint64s := m.uint64s ++ [0]
          bigInts := m.bigInts ++ [Int.ofNat chainID]
          optimismConfigs :=
            m.optimismConfigs ++ [{ EIP1559Elasticity := 6, EIP1559Denominator := 50 }] }
      let _unused := superchainConfig.Config
      if chainID = 420 then
        (.ok { out with
          LondonBlock := some (.heap (m.bigInts.length + 1))
          ArrowGlacierBlock := some (.heap (m.bigInts.length + 2))
          GrayGlacierBlock := some (.heap (m.bigInts.length + 3))
          MergeNetsplitBlock := some (.heap (m.bigInts.length + 4))
          BedrockBlock := some (.heap (m.bigInts.length + 5))
          RegolithTime := some .OptimismGoerliRegolithTime },
         Memory.setEIP1559Elasticity optimism 10
           { built with
             bigInts := built.bigInts ++ [4061224, 4061224, 4061224, 4061224, 4061224] })
      else if chainID = 10 then
        (.ok { out with
          BerlinBlock := some (.heap (m.bigInts.length + 1))
          LondonBlock := some (.heap (m.bigInts.length + 2))
          ArrowGlacierBlock := some (.heap (m.bigInts.length + 3))
          GrayGlacierBlock := some (.heap (m.bigInts.length + 4))
          MergeNetsplitBlock := some (.heap (m.bigInts.length + 5))
          BedrockBlock := some (.heap (m.bigInts.length + 6)) },
         { built with
           bigInts := built.bigInts ++
             [3950000, 105235063, 105235063, 105235063, 105235063, 105235063] })
      else if chainID = 84531 then
        (.ok { out with RegolithTime := some .BaseGoerliRegolithTime }, built)
      else
        (.ok out, built)

/-- A memory holding the sample registry and Regolith times, `common.Big0` at 0, and one
earlier object on each heap. -/
def sampleMemory : Memory :=
  { reg := sampleRegistry
    rt := sampleTimes
    Big0 := 0
    bigInts := [99]
    uint64s := [98]
    optimismConfigs := [⟨1, 2⟩] }

end Superchain

/-! # Theorems -/

namespace Superchain

/-! ## Shared lemmas -/

/-- The resolver succeeds exactly when the chain and its superchain group are registered. -/
theorem LoadOPStackChainConfig_ok_iff (reg : Registry) (rt : RegolithTimes) (chainID : Nat) :
    (∃ cfg, LoadOPStackChainConfig reg rt chainID = .ok cfg) ↔
      ∃ chConfig, reg.OPChains chainID = some chConfig ∧
        (reg.Superchains chConfig.Superchain).isSome = true := by
  unfold LoadOPStackChainConfig
  cases hc : reg.OPChains chainID with
  | none => simp
  | some chConfig =>
    cases hs : reg.Superchains chConfig.Superchain with
    | none => simp [hs]
    | some sc =>
      simp only [Option.some.injEq, exists_eq_left', hs, Option.isSome_some, iff_true]
      split_ifs <;> exact ⟨_, rfl⟩

/-- Once the resolver has given `cfg`, the genesis loader is the size check followed by the
hash gate on the candidate genesis. -/
theorem LoadOPStackGenesis_of_config (reg : Registry) (rt : RegolithTimes)
    (blockHash : Genesis → Hash) (chainID : Nat) (chConfig : OPChainConfig) (cfg : ChainConfig)
    (hc : reg.OPChains chainID = some chConfig)
    (hcfg : LoadOPStackChainConfig reg rt chainID = .ok cfg) :
    LoadOPStackGenesis reg rt blockHash chainID =
      if 32 < (candidateGenesis cfg chConfig).ExtraData.length then
        .error (.extraDataTooLarge (candidateGenesis cfg chConfig).ExtraData.length)
      else if blockHash (candidateGenesis cfg chConfig) = chConfig.Genesis.L2.Hash then
        .ok (candidateGenesis cfg chConfig)
      else
        .error (.genesisHashMismatch (blockHash (candidateGenesis cfg chConfig))
          chConfig.Genesis.L2.Hash) := by
  unfold LoadOPStackGenesis candidateGenesis
  simp only [hc, hcfg]
  cases hx : chConfig.Genesis.ExtraData with
  | none =>
    have h7 : ¬ 32 < bedrockExtraData.length := by decide
    simp only [h7, if_false, ne_eq]
    by_cases hh : blockHash
        { Config := some cfg, Nonce := 0, Timestamp := chConfig.Genesis.L2Time,
          ExtraData := bedrockExtraData, GasLimit := 30000000, Difficulty := none,
          Mixhash := Hash.zero, Coinbase := Address.zero, Alloc := none, Number := 0,
          GasUsed := 0, ParentHash := Hash.zero, BaseFee := none } = chConfig.Genesis.L2.Hash
    · simp [hh]
    · have hh2 := Ne.symm hh
      simp [hh, hh2]
  | some extraData =>
    simp only [gt_iff_lt, ne_eq]
    by_cases hl : 32 < extraData.length
    · simp [hl]
    · simp only [hl, if_false]
      by_cases hh : blockHash
          { Config := some cfg, Nonce := 0, Timestamp := chConfig.Genesis.L2Time,
            ExtraData := extraData, GasLimit := 30000000, Difficulty := none,
            Mixhash := Hash.zero, Coinbase := Address.zero, Alloc := none, Number := 0,
            GasUsed := 0, ParentHash := Hash.zero, BaseFee := none } = chConfig.Genesis.L2.Hash
      · simp [hh]
      · have hh2 := Ne.symm hh
        simp [hh, hh2]

/-- When the resolver fails, the genesis loader fails as well. -/
theorem LoadOPStackGenesis_of_config_error (reg : Registry) (rt : RegolithTimes)
    (blockHash : Genesis → Hash) (chainID : Nat) (err : LoadError)
    (herr : LoadOPStackChainConfig reg rt chainID = .error err) :
    LoadOPStackGenesis reg rt blockHash chainID =
      match reg.OPChains chainID with
      | none => .error (.unknownChain chainID)
      | some _ => .error (.failedToLoadChainConfig chainID err) := by
  unfold LoadOPStackGenesis
  cases hc : reg.OPChains chainID with
  | none => rfl
  | some chConfig => simp only [herr]

/-! ## The hash gate of `LoadOPStackGenesis` -/

/-- C1: for every registry, hash function and chain ID, a genesis returned by
`LoadOPStackGenesis` has a computed hash equal to the expected hash `Genesis.L2.Hash` that
the registry records for that chain ID. -/
theorem LoadOPStackGenesis_ok_hash_eq (reg : Registry) (rt : RegolithTimes)
    (blockHash : Genesis → Hash) (chainID : Nat) (genesis : Genesis)
    (h : LoadOPStackGenesis reg rt blockHash chainID = .ok genesis) :
    ∃ chConfig, reg.OPChains chainID = some chConfig ∧
      blockHash genesis = chConfig.Genesis.L2.Hash := by
  cases hc : reg.OPChains chainID with
  | none =>
    unfold LoadOPStackGenesis at h
    simp [hc] at h
  | some chConfig =>
    refine ⟨chConfig, rfl, ?_⟩
    cases hcfg : LoadOPStackChainConfig reg rt chainID with
    | error err =>
      rw [LoadOPStackGenesis_of_config_error reg rt blockHash chainID err hcfg] at h
      simp [hc] at h
    | ok cfg =>
      rw [LoadOPStackGenesis_of_config reg rt blockHash chainID chConfig cfg hc hcfg] at h
      split_ifs at h with h1 h2
      cases h
      exact h2

/-- Witness of C1: chain 7 of the sample registry loads, and the hash of the genesis it
returns is the expected one. -/
theorem LoadOPStackGenesis_ok_hash_eq_witness :
    LoadOPStackGenesis sampleRegistry sampleTimes sampleHash 7 =
        .ok (candidateGenesis
          { ChainID := some 7, HomesteadBlock := some 0, DAOForkBlock := none,
            DAOForkSupport := false, EIP150Block := some 0, EIP155Block := some 0,
            EIP158Block := some 0, ByzantiumBlock := some 0, ConstantinopleBlock := some 0,
            PetersburgBlock := some 0, IstanbulBlock := some 0, MuirGlacierBlock := some 0,
            BerlinBlock := some 0, LondonBlock := some 0, ArrowGlacierBlock := some 0,
            GrayGlacierBlock := some 0, MergeNetsplitBlock := some 0, ShanghaiTime := none,
            CancunTime := none, PragueTime := none, BedrockBlock := some 0,
            RegolithTime := some 0, TerminalTotalDifficulty := some 0,
            TerminalTotalDifficultyPassed := true, Ethash := none, Clique := none,
            Optimism := some ⟨6, 50⟩ }
          (sampleChain 7 "mainnet" none)) ∧
      ∃ chConfig, sampleRegistry.OPChains 7 = some chConfig ∧
        sampleHash (candidateGenesis
          { ChainID := some 7, HomesteadBlock := some 0, DAOForkBlock := none,
            DAOForkSupport := false, EIP150Block := some 0, EIP155Block := some 0,
            EIP158Block := some 0, ByzantiumBlock := some 0, ConstantinopleBlock := some 0,
            PetersburgBlock := some 0, IstanbulBlock := some 0, MuirGlacierBlock := some 0,
            BerlinBlock := some 0, LondonBlock := some 0, ArrowGlacierBlock := some 0,
            GrayGlacierBlock := some 0, MergeNetsplitBlock := some 0, ShanghaiTime := none,
            CancunTime := none, PragueTime := none, BedrockBlock := some 0,
            RegolithTime := some 0, TerminalTotalDifficulty := some 0,
            TerminalTotalDifficultyPassed := true, Ethash := none, Clique := none,
            Optimism := some ⟨6, 50⟩ }
          (sampleChain 7 "mainnet" none)) = chConfig.Genesis.L2.Hash :=
  ⟨by decide,
   LoadOPStackGenesis_ok_hash_eq sampleRegistry sampleTimes sampleHash 7 _ (by decide)⟩

/-- C2: when the chain and its superchain group are registered and the effective extra-data
(the registry's override, or `"BEDROCK"` without one) has at most 32 bytes, the resolver
gives a config `cfg`, and `LoadOPStackGenesis` fails with the hash-mismatch error when the
hash of the candidate genesis differs from the registry's expected hash, and returns the
candidate genesis when the two hashes are equal. -/
theorem LoadOPStackGenesis_hash_gate (reg : Registry) (rt : RegolithTimes)
    (blockHash : Genesis → Hash) (chainID : Nat) (chConfig : OPChainConfig)
    (hc : reg.OPChains chainID = some chConfig)
    (hs : (reg.Superchains chConfig.Superchain).isSome = true)
    (hx : (chConfig.Genesis.ExtraData.getD bedrockExtraData).length ≤ 32) :
    ∃ cfg, LoadOPStackChainConfig reg rt chainID = .ok cfg ∧
      (blockHash (candidateGenesis cfg chConfig) ≠ chConfig.Genesis.L2.Hash →
        LoadOPStackGenesis reg rt blockHash chainID =
          .error (.genesisHashMismatch (blockHash (candidateGenesis cfg chConfig))
            chConfig.Genesis.L2.Hash)) ∧
      (blockHash (candidateGenesis cfg chConfig) = chConfig.Genesis.L2.Hash →
        LoadOPStackGenesis reg rt blockHash chainID = .ok (candidateGenesis cfg chConfig)) := by
  obtain ⟨cfg, hcfg⟩ := (LoadOPStackChainConfig_ok_iff reg rt chainID).2 ⟨chConfig, hc, hs⟩
  have hlen : ¬ 32 < (candidateGenesis cfg chConfig).ExtraData.length := by
    unfold candidateGenesis
    cases hx2 : chConfig.Genesis.ExtraData with
    | none =>
      show ¬ 32 < bedrockExtraData.length
      decide
    | some extraData =>
      rw [hx2] at hx
      show ¬ 32 < extraData.length
      have hx3 : extraData.length ≤ 32 := hx
      omega
  refine ⟨cfg, hcfg, ?_, ?_⟩
  · intro hne
    rw [LoadOPStackGenesis_of_config reg rt blockHash chainID chConfig cfg hc hcfg]
    simp [hlen, hne]
  · intro heq
    rw [LoadOPStackGenesis_of_config reg rt blockHash chainID chConfig cfg hc hcfg]
    simp [hlen, heq]

/-- Witness of C2: chain 11 of the sample registry has a 2-byte extra-data override and a
hash other than the expected one, and fails with the hash-mismatch error; chain 7 has no
override and the expected hash, and returns a genesis. -/
theorem LoadOPStackGenesis_hash_gate_witness :
    sampleRegistry.OPChains 11 = some (sampleChain 11 "mainnet" (some [1, 2])) ∧
    (sampleRegistry.Superchains "mainnet").isSome = true ∧
    ([1, 2] : List Byte).length ≤ 32 ∧
    (∃ cfg, LoadOPStackChainConfig sampleRegistry sampleTimes 11 = .ok cfg ∧
      (sampleHash (candidateGenesis cfg (sampleChain 11 "mainnet" (some [1, 2]))) ≠
          (sampleChain 11 "mainnet" (some [1, 2])).Genesis.L2.Hash →
        LoadOPStackGenesis sampleRegistry sampleTimes sampleHash 11 =
          .error (.genesisHashMismatch
            (sampleHash (candidateGenesis cfg (sampleChain 11 "mainnet" (some [1, 2]))))
            (sampleChain 11 "mainnet" (some [1, 2])).Genesis.L2.Hash)) ∧
      (sampleHash (candidateGenesis cfg (sampleChain 11 "mainnet" (some [1, 2]))) =
          (sampleChain 11 "mainnet" (some [1, 2])).Genesis.L2.Hash →
        LoadOPStackGenesis sampleRegistry sampleTimes sampleHash 11 =
          .ok (candidateGenesis cfg (sampleChain 11 "mainnet" (some [1, 2]))))) ∧
    LoadOPStackGenesis sampleRegistry sampleTimes sampleHash 11 =
      .error (.genesisHashMismatch (Hash.fill 34) (Hash.fill 17)) ∧
    (LoadOPStackGenesis sampleRegistry sampleTimes sampleHash 7).toOption.isSome = true :=
  ⟨by decide, by decide, by decide,
   LoadOPStackGenesis_hash_gate sampleRegistry sampleTimes sampleHash 11
     (sampleChain 11 "mainnet" (some [1, 2])) (by decide) (by decide) (by decide),
   by decide, by decide⟩

/-- C3: when the chain and its superchain group are registered and the effective extra-data
(the registry's override, or `"BEDROCK"` without one) is longer than 32 bytes,
`LoadOPStackGenesis` fails with the extra-data-too-large error for every hash function:
the result does not depend on the hash computation. -/
theorem LoadOPStackGenesis_extraData_too_large (reg : Registry) (rt : RegolithTimes)
    (blockHash : Genesis → Hash) (chainID : Nat) (chConfig : OPChainConfig)
    (hc : reg.OPChains chainID = some chConfig)
    (hs : (reg.Superchains chConfig.Superchain).isSome = true)
    (hx : 32 < (chConfig.Genesis.ExtraData.getD bedrockExtraData).length) :
    LoadOPStackGenesis reg rt blockHash chainID =
      .error (.extraDataTooLarge (chConfig.Genesis.ExtraData.getD bedrockExtraData).length) := by
  obtain ⟨cfg, hcfg⟩ := (LoadOPStackChainConfig_ok_iff reg rt chainID).2 ⟨chConfig, hc, hs⟩
  have hcand : (candidateGenesis cfg chConfig).ExtraData =
      chConfig.Genesis.ExtraData.getD bedrockExtraData := by
    unfold candidateGenesis
    cases chConfig.Genesis.ExtraData <;> rfl
  rw [LoadOPStackGenesis_of_config reg rt blockHash chainID chConfig cfg hc hcfg, hcand]
  simp [hx]

/-- Witness of C3: chain 9 of the sample registry has a 33-byte extra-data override and is
rejected both by a hash function that would match and by one that would not. -/
theorem LoadOPStackGenesis_extraData_too_large_witness :
    sampleRegistry.OPChains 9 = some (sampleChain 9 "mainnet" (some (List.replicate 33 0))) ∧
    (sampleRegistry.Superchains "mainnet").isSome = true ∧
    32 < (List.replicate 33 (0 : Byte)).length ∧
    LoadOPStackGenesis sampleRegistry sampleTimes (fun _ => Hash.fill 17) 9 =
      .error (.extraDataTooLarge 33) ∧
    LoadOPStackGenesis sampleRegistry sampleTimes (fun _ => Hash.fill 34) 9 =
      .error (.extraDataTooLarge 33) :=
  ⟨by decide, by decide, by decide,
   LoadOPStackGenesis_extraData_too_large sampleRegistry sampleTimes (fun _ => Hash.fill 17) 9
     (sampleChain 9 "mainnet" (some (List.replicate 33 0))) (by decide) (by decide) (by decide),
   LoadOPStackGenesis_extraData_too_large sampleRegistry sampleTimes (fun _ => Hash.fill 34) 9
     (sampleChain 9 "mainnet" (some (List.replicate 33 0))) (by decide) (by decide) (by decide)⟩

/-! ## The resolver `LoadOPStackChainConfig` -/

/-- C4: for a chain ID other than 420, 10 and 84531 whose chain and superchain group are
registered, `LoadOPStackChainConfig` returns a config in which every block-number fork
activation is 0, the Regolith time is 0 and the fee elasticity and denominator are 6
and 50. -/
theorem LoadOPStackChainConfig_no_override (reg : Registry) (rt : RegolithTimes)
    (chainID : Nat) (chConfig : OPChainConfig)
    (hc : reg.OPChains chainID = some chConfig)
    (hs : (reg.Superchains chConfig.Superchain).isSome = true)
    (h420 : chainID ≠ 420) (h10 : chainID ≠ 10) (h84531 : chainID ≠ 84531) :
    ∃ cfg, LoadOPStackChainConfig reg rt chainID = .ok cfg ∧
      cfg.HomesteadBlock = some 0 ∧ cfg.EIP150Block = some 0 ∧ cfg.EIP155Block = some 0 ∧
      cfg.EIP158Block = some 0 ∧ cfg.ByzantiumBlock = some 0 ∧
      cfg.ConstantinopleBlock = some 0 ∧ cfg.PetersburgBlock = some 0 ∧
      cfg.IstanbulBlock = some 0 ∧ cfg.MuirGlacierBlock = some 0 ∧
      cfg.BerlinBlock = some 0 ∧ cfg.LondonBlock = some 0 ∧
      cfg.ArrowGlacierBlock = some 0 ∧ cfg.GrayGlacierBlock = some 0 ∧
      cfg.MergeNetsplitBlock = some 0 ∧ cfg.BedrockBlock = some 0 ∧
      cfg.RegolithTime = some 0 ∧
      cfg.Optimism = some { EIP1559Elasticity := 6, EIP1559Denominator := 50 } := by
  unfold LoadOPStackChainConfig
  cases hs2 : reg.Superchains chConfig.Superchain with
  | none => simp [hs2] at hs
  | some sc => simp [hc, hs2, h420, h10, h84531, Big0]

/-- Witness of C4: chain 7 of the sample registry has no override. -/
theorem LoadOPStackChainConfig_no_override_witness :
    sampleRegistry.OPChains 7 = some (sampleChain 7 "mainnet" none) ∧
    (sampleRegistry.Superchains "mainnet").isSome = true ∧
    ∃ cfg, LoadOPStackChainConfig sampleRegistry sampleTimes 7 = .ok cfg ∧
      cfg.HomesteadBlock = some 0 ∧ cfg.EIP150Block = some 0 ∧ cfg.EIP155Block = some 0 ∧
      cfg.EIP158Block = some 0 ∧ cfg.ByzantiumBlock = some 0 ∧
      cfg.ConstantinopleBlock = some 0 ∧ cfg.PetersburgBlock = some 0 ∧
      cfg.IstanbulBlock = some 0 ∧ cfg.MuirGlacierBlock = some 0 ∧
      cfg.BerlinBlock = some 0 ∧ cfg.LondonBlock = some 0 ∧
      cfg.ArrowGlacierBlock = some 0 ∧ cfg.GrayGlacierBlock = some 0 ∧
      cfg.MergeNetsplitBlock = some 0 ∧ cfg.BedrockBlock = some 0 ∧
      cfg.RegolithTime = some 0 ∧
      cfg.Optimism = some { EIP1559Elasticity := 6, EIP1559Denominator := 50 } :=
  ⟨by decide, by decide,
   LoadOPStackChainConfig_no_override sampleRegistry sampleTimes 7
     (sampleChain 7 "mainnet" none) (by decide) (by decide) (by decide) (by decide)
     (by decide)⟩

/-- C5: a config returned by `LoadOPStackChainConfig` for an overridden chain holds the
override values: for chain 420 the London, ArrowGlacier, GrayGlacier, MergeNetsplit and
Bedrock blocks are 4061224 (not the default 0), the Regolith time is
`OptimismGoerliRegolithTime` and the fee elasticity is 10; for chain 10 the Berlin block
is 3950000 and the London, ArrowGlacier, GrayGlacier, MergeNetsplit and Bedrock blocks are
105235063 (not the default 0); for chain 84531 the Regolith time is
`BaseGoerliRegolithTime`. -/
theorem LoadOPStackChainConfig_overrides (reg : Registry) (rt : RegolithTimes)
    (cfg : ChainConfig) :
    (LoadOPStackChainConfig reg rt 420 = .ok cfg →
      cfg.LondonBlock = some 4061224 ∧ cfg.ArrowGlacierBlock = some 4061224 ∧
      cfg.GrayGlacierBlock = some 4061224 ∧ cfg.MergeNetsplitBlock = some 4061224 ∧
      cfg.BedrockBlock = some 4061224 ∧ cfg.LondonBlock ≠ Big0 ∧
      cfg.RegolithTime = some rt.OptimismGoerliRegolithTime ∧
      cfg.Optimism.map (fun o => o.EIP1559Elasticity) = some 10) ∧
    (LoadOPStackChainConfig reg rt 10 = .ok cfg →
      cfg.BerlinBlock = some 3950000 ∧ cfg.LondonBlock = some 105235063 ∧
      cfg.ArrowGlacierBlock = some 105235063 ∧ cfg.GrayGlacierBlock = some 105235063 ∧
      cfg.MergeNetsplitBlock = some 105235063 ∧ cfg.BedrockBlock = some 105235063 ∧
      cfg.BerlinBlock ≠ Big0 ∧ cfg.LondonBlock ≠ Big0) ∧
    (LoadOPStackChainConfig reg rt 84531 = .ok cfg →
      cfg.RegolithTime = some rt.BaseGoerliRegolithTime) := by
  refine ⟨?_, ?_, ?_⟩ <;>
  · intro h
    unfold LoadOPStackChainConfig at h
    split at h
    · cases h
    · split at h
      · cases h
      · simp only [Nat.reduceEqDiff, if_true, if_false, Except.ok.injEq] at h
        subst h
        simp [Big0]

/-- Witness of C5: in the sample registry the chains 420, 10 and 84531 resolve, and their
configs hold the override values. -/
theorem LoadOPStackChainConfig_overrides_witness :
    (∃ cfg, LoadOPStackChainConfig sampleRegistry sampleTimes 420 = .ok cfg ∧
      cfg.LondonBlock = some 4061224 ∧ cfg.BedrockBlock = some 4061224 ∧
      cfg.RegolithTime = some 1679079600 ∧
      cfg.Optimism.map (fun o => o.EIP1559Elasticity) = some 10) ∧
    (∃ cfg, LoadOPStackChainConfig sampleRegistry sampleTimes 10 = .ok cfg ∧
      cfg.BerlinBlock = some 3950000 ∧ cfg.BedrockBlock = some 105235063) ∧
    (∃ cfg, LoadOPStackChainConfig sampleRegistry sampleTimes 84531 = .ok cfg ∧
      cfg.RegolithTime = some 1683219600) := by
  obtain ⟨c1, h1⟩ := (LoadOPStackChainConfig_ok_iff sampleRegistry sampleTimes 420).2
    ⟨sampleChain 420 "mainnet" none, by decide, by decide⟩
  obtain ⟨c2, h2⟩ := (LoadOPStackChainConfig_ok_iff sampleRegistry sampleTimes 10).2
    ⟨sampleChain 10 "mainnet" none, by decide, by decide⟩
  obtain ⟨c3, h3⟩ := (LoadOPStackChainConfig_ok_iff sampleRegistry sampleTimes 84531).2
    ⟨sampleChain 84531 "mainnet" none, by decide, by decide⟩
  have a := (LoadOPStackChainConfig_overrides sampleRegistry sampleTimes c1).1 h1
  have b := (LoadOPStackChainConfig_overrides sampleRegistry sampleTimes c2).2.1 h2
  have c := (LoadOPStackChainConfig_overrides sampleRegistry sampleTimes c3).2.2 h3
  exact ⟨⟨c1, h1, a.1, a.2.2.2.2.1, a.2.2.2.2.2.2.1, a.2.2.2.2.2.2.2⟩,
    ⟨c2, h2, b.1, b.2.2.2.2.2.1⟩, ⟨c3, h3, c⟩⟩

/-- C6: for a chain ID absent from the chain table, `LoadOPStackChainConfig` returns the
unknown-chain error and no config, whatever the superchain table contains. -/
theorem LoadOPStackChainConfig_unknown_chain (reg : Registry) (rt : RegolithTimes)
    (chainID : Nat) (hc : reg.OPChains chainID = none) :
    LoadOPStackChainConfig reg rt chainID = .error (.unknownChain chainID) ∧
      ∀ superchains, LoadOPStackChainConfig ⟨reg.OPChains, superchains⟩ rt chainID =
        .error (.unknownChain chainID) := by
  unfold LoadOPStackChainConfig
  simp [hc]

/-- Witness of C6: chain 1 is absent from the sample registry. -/
theorem LoadOPStackChainConfig_unknown_chain_witness :
    sampleRegistry.OPChains 1 = none ∧
    LoadOPStackChainConfig sampleRegistry sampleTimes 1 = .error (.unknownChain 1) :=
  ⟨by decide,
   (LoadOPStackChainConfig_unknown_chain sampleRegistry sampleTimes 1 (by decide)).1⟩

/-- C7: for a registered chain whose superchain grouping key is absent from the superchain
table, `LoadOPStackChainConfig` fails with the unknown-superchain error and returns no
config; and it returns a config if and only if both the chain and its superchain group
are registered. -/
theorem LoadOPStackChainConfig_unknown_superchain (reg : Registry) (rt : RegolithTimes)
    (chainID : Nat) :
    (∀ chConfig, reg.OPChains chainID = some chConfig →
      reg.Superchains chConfig.Superchain = none →
      LoadOPStackChainConfig reg rt chainID =
        .error (.unknownSuperchain chConfig.Superchain)) ∧
    ((∃ cfg, LoadOPStackChainConfig reg rt chainID = .ok cfg) ↔
      ∃ chConfig, reg.OPChains chainID = some chConfig ∧
        (reg.Superchains chConfig.Superchain).isSome = true) := by
  refine ⟨?_, LoadOPStackChainConfig_ok_iff reg rt chainID⟩
  intro chConfig hc hs
  unfold LoadOPStackChainConfig
  simp [hc, hs]

/-- Witness of C7: chain 8 of the sample registry is registered in the unregistered
superchain `"ghost"`. -/
theorem LoadOPStackChainConfig_unknown_superchain_witness :
    sampleRegistry.OPChains 8 = some (sampleChain 8 "ghost" none) ∧
    sampleRegistry.Superchains "ghost" = none ∧
    LoadOPStackChainConfig sampleRegistry sampleTimes 8 =
      .error (.unknownSuperchain "ghost") :=
  ⟨by decide, by decide,
   (LoadOPStackChainConfig_unknown_superchain sampleRegistry sampleTimes 8).1
     (sampleChain 8 "ghost" none) (by decide) (by decide)⟩

/-- C8: in every config that `LoadOPStackChainConfig` returns, the overridden chains
included, every block-number fork activation is set and the activations are non-decreasing
in historical deployment order, from Homestead to Bedrock. -/
theorem LoadOPStackChainConfig_forkBlocks_sorted (reg : Registry) (rt : RegolithTimes)
    (chainID : Nat) (cfg : ChainConfig)
    (h : LoadOPStackChainConfig reg rt chainID = .ok cfg) :
    ∃ blocks : List Int, forkBlocks cfg = blocks.map some ∧
      blocks.length = 15 ∧ List.Pairwise (fun a b => a ≤ b) blocks := by
  unfold LoadOPStackChainConfig at h
  split at h
  · cases h
  · split at h
    · cases h
    · split_ifs at h <;> cases h
      · exact ⟨[0, 0, 0, 0, 0, 0, 0, 0, 0, 0, 4061224, 4061224, 4061224, 4061224, 4061224],
          rfl, rfl, by decide⟩
      · exact ⟨[0, 0, 0, 0, 0, 0, 0, 0, 0, 3950000, 105235063, 105235063, 105235063,
          105235063, 105235063], rfl, rfl, by decide⟩
      · exact ⟨[0, 0, 0, 0, 0, 0, 0, 0, 0, 0, 0, 0, 0, 0, 0], rfl, rfl, by decide⟩
      · exact ⟨[0, 0, 0, 0, 0, 0, 0, 0, 0, 0, 0, 0, 0, 0, 0], rfl, rfl, by decide⟩

/-- Witness of C8: chain 10 of the sample registry resolves, with sorted activations. -/
theorem LoadOPStackChainConfig_forkBlocks_sorted_witness :
    ∃ cfg, LoadOPStackChainConfig sampleRegistry sampleTimes 10 = .ok cfg ∧
      ∃ blocks : List Int, forkBlocks cfg = blocks.map some ∧
        blocks.length = 15 ∧ List.Pairwise (fun a b => a ≤ b) blocks := by
  obtain ⟨cfg, hcfg⟩ := (LoadOPStackChainConfig_ok_iff sampleRegistry sampleTimes 10).2
    ⟨sampleChain 10 "mainnet" none, by decide, by decide⟩
  exact ⟨cfg, hcfg,
    LoadOPStackChainConfig_forkBlocks_sorted sampleRegistry sampleTimes 10 cfg hcfg⟩

/-- C9: in every config that `LoadOPStackChainConfig` returns, the overridden chains
included, `ShanghaiTime`, `CancunTime` and `PragueTime` are unset. -/
theorem LoadOPStackChainConfig_post_merge_unset (reg : Registry) (rt : RegolithTimes)
    (chainID : Nat) (cfg : ChainConfig)
    (h : LoadOPStackChainConfig reg rt chainID = .ok cfg) :
    cfg.ShanghaiTime = none ∧ cfg.CancunTime = none ∧ cfg.PragueTime = none := by
  unfold LoadOPStackChainConfig at h
  split at h
  · cases h
  · split at h
    · cases h
    · split_ifs at h <;> cases h <;> exact ⟨rfl, rfl, rfl⟩

/-- Witness of C9: chain 420 of the sample registry resolves, with the three times unset. -/
theorem LoadOPStackChainConfig_post_merge_unset_witness :
    ∃ cfg, LoadOPStackChainConfig sampleRegistry sampleTimes 420 = .ok cfg ∧
      cfg.ShanghaiTime = none ∧ cfg.CancunTime = none ∧ cfg.PragueTime = none := by
  obtain ⟨cfg, hcfg⟩ := (LoadOPStackChainConfig_ok_iff sampleRegistry sampleTimes 420).2
    ⟨sampleChain 420 "mainnet" none, by decide, by decide⟩
  exact ⟨cfg, hcfg,
    LoadOPStackChainConfig_post_merge_unset sampleRegistry sampleTimes 420 cfg hcfg⟩

/-! ## Resolver errors in `LoadOPStackGenesis` -/

/-- C10, as stated, fails: for chain 8 of the sample registry (registered, in an
unregistered superchain) the resolver fails with the unknown-superchain error, and
`LoadOPStackGenesis` fails with another error, which wraps it. -/
theorem LoadOPStackGenesis_resolver_error_not_unchanged :
    LoadOPStackChainConfig sampleRegistry sampleTimes 8 =
      .error (.unknownSuperchain "ghost") ∧
    LoadOPStackGenesis sampleRegistry sampleTimes sampleHash 8 =
      .error (.failedToLoadChainConfig 8 (.unknownSuperchain "ghost")) ∧
    LoadOPStackGenesis sampleRegistry sampleTimes sampleHash 8 ≠
      .error (.unknownSuperchain "ghost") := by
  decide

/-- C10, amended: when the resolver `LoadOPStackChainConfig` fails with `err`,
`LoadOPStackGenesis` fails too. For a chain ID absent from the chain table `err` is the
unknown-chain error and `LoadOPStackGenesis` fails with that same error; for a registered
chain `err` is the unknown-superchain error and `LoadOPStackGenesis` fails with the
"failed to load params.ChainConfig for chain <id>" error that wraps `err` unchanged. -/
theorem LoadOPStackGenesis_resolver_error (reg : Registry) (rt : RegolithTimes)
    (blockHash : Genesis → Hash) (chainID : Nat) (err : LoadError)
    (herr : LoadOPStackChainConfig reg rt chainID = .error err) :
    (reg.OPChains chainID = none →
      err = .unknownChain chainID ∧
      LoadOPStackGenesis reg rt blockHash chainID = .error err) ∧
    (∀ chConfig, reg.OPChains chainID = some chConfig →
      err = .unknownSuperchain chConfig.Superchain ∧
      LoadOPStackGenesis reg rt blockHash chainID =
        .error (.failedToLoadChainConfig chainID err)) := by
  have hg := LoadOPStackGenesis_of_config_error reg rt blockHash chainID err herr
  constructor
  · intro hc
    have he : err = .unknownChain chainID := by
      unfold LoadOPStackChainConfig at herr
      simp only [hc] at herr
      cases herr
      rfl
    refine ⟨he, ?_⟩
    rw [hg, hc, he]
  · intro chConfig hc
    have he : err = .unknownSuperchain chConfig.Superchain := by
      unfold LoadOPStackChainConfig at herr
      simp only [hc] at herr
      split at herr
      · cases herr
        rfl
      · split_ifs at herr
    refine ⟨he, ?_⟩
    rw [hg, hc]

/-- Witness of C10, amended: chain 1 (absent) keeps the resolver's error, chain 8 (in an
unregistered superchain) has it wrapped. -/
theorem LoadOPStackGenesis_resolver_error_witness :
    (LoadOPStackChainConfig sampleRegistry sampleTimes 1 = .error (.unknownChain 1) ∧
      sampleRegistry.OPChains 1 = none ∧
      LoadOPStackGenesis sampleRegistry sampleTimes sampleHash 1 =
        .error (.unknownChain 1)) ∧
    (LoadOPStackChainConfig sampleRegistry sampleTimes 8 =
        .error (.unknownSuperchain "ghost") ∧
      sampleRegistry.OPChains 8 = some (sampleChain 8 "ghost" none) ∧
      LoadOPStackGenesis sampleRegistry sampleTimes sampleHash 8 =
        .error (.failedToLoadChainConfig 8 (.unknownSuperchain "ghost"))) :=
  ⟨⟨by decide, by decide,
    ((LoadOPStackGenesis_resolver_error sampleRegistry sampleTimes sampleHash 1
      (.unknownChain 1) (by decide)).1 (by decide)).2⟩,
   ⟨by decide, by decide,
    ((LoadOPStackGenesis_resolver_error sampleRegistry sampleTimes sampleHash 8
      (.unknownSuperchain "ghost") (by decide)).2 (sampleChain 8 "ghost" none)
      (by decide)).2⟩⟩

/-! ## What the errors carry -/

/-- C11, as stated, fails: the unknown-superchain error of chain 8 of the sample registry
prints no chain ID, neither does the extra-data error of chain 9, and under a hash function
that never matches the chains 7 and 10 fail with one and the same hash-mismatch error, from
which the requested chain ID cannot be read. -/
theorem LoadError_without_chainID :
    LoadOPStackChainConfig sampleRegistry sampleTimes 8 =
      .error (.unknownSuperchain "ghost") ∧
    (LoadError.unknownSuperchain "ghost").printedChainID = none ∧
    LoadOPStackGenesis sampleRegistry sampleTimes sampleHash 9 =
      .error (.extraDataTooLarge 33) ∧
    (LoadError.extraDataTooLarge 33).printedChainID = none ∧
    LoadOPStackGenesis sampleRegistry sampleTimes (fun _ => Hash.fill 34) 7 =
      .error (.genesisHashMismatch (Hash.fill 34) (Hash.fill 17)) ∧
    LoadOPStackGenesis sampleRegistry sampleTimes (fun _ => Hash.fill 34) 10 =
      .error (.genesisHashMismatch (Hash.fill 34) (Hash.fill 17)) := by
  decide

/-- C11, amended: the error of `SystemConfigAddr` carries the chain ID of the request; an
error of `LoadOPStackChainConfig` carries it when the chain is absent from the chain table
and carries no chain ID when the chain is registered (unknown superchain); an error of
`LoadOPStackGenesis` carries it when the resolver fails (unknown chain, or the wrapped
resolver error) and carries no chain ID when the resolver succeeds (extra-data too large,
genesis hash mismatch). -/
theorem LoadError_printedChainID (reg : Registry) (rt : RegolithTimes)
    (blockHash : Genesis → Hash) (chainID : Nat) (err : LoadError) :
    ((SystemConfigAddr reg chainID).2 = some err → err.printedChainID = some chainID) ∧
    (LoadOPStackChainConfig reg rt chainID = .error err →
      (reg.OPChains chainID = none → err.printedChainID = some chainID) ∧
      (reg.OPChains chainID ≠ none → err.printedChainID = none)) ∧
    (LoadOPStackGenesis reg rt blockHash chainID = .error err →
      ((∃ e, LoadOPStackChainConfig reg rt chainID = .error e) →
        err.printedChainID = some chainID) ∧
      ((∃ cfg, LoadOPStackChainConfig reg rt chainID = .ok cfg) →
        err.printedChainID = none)) := by
  refine ⟨?_, ?_, ?_⟩
  · intro h
    unfold SystemConfigAddr at h
    cases hc : reg.OPChains chainID with
    | none =>
      simp only [hc, Option.some.injEq] at h
      rw [← h]
      rfl
    | some chConfig => simp [hc] at h
  · intro h
    unfold LoadOPStackChainConfig at h
    cases hc : reg.OPChains chainID with
    | none =>
      simp only [hc, Except.error.injEq] at h
      rw [← h]
      exact ⟨fun _ => rfl, fun hne => absurd rfl hne⟩
    | some chConfig =>
      simp only [hc] at h
      split at h
      · cases h
        exact ⟨fun hn => Option.noConfusion hn, fun _ => rfl⟩
      · split_ifs at h
  · intro h
    cases hcfg : LoadOPStackChainConfig reg rt chainID with
    | error e =>
      rw [LoadOPStackGenesis_of_config_error reg rt blockHash chainID e hcfg] at h
      refine ⟨fun _ => ?_, fun hok => ?_⟩
      · cases hc : reg.OPChains chainID with
        | none =>
          simp only [hc, Except.error.injEq] at h
          rw [← h]
          rfl
        | some chConfig =>
          simp only [hc, Except.error.injEq] at h
          rw [← h]
          rfl
      · obtain ⟨cfg, hcfg2⟩ := hok
        cases hcfg2
    | ok cfg =>
      obtain ⟨chConfig, hc, _⟩ := (LoadOPStackChainConfig_ok_iff reg rt chainID).1 ⟨cfg, hcfg⟩
      rw [LoadOPStackGenesis_of_config reg rt blockHash chainID chConfig cfg hc hcfg] at h
      refine ⟨fun herr => ?_, fun _ => ?_⟩
      · obtain ⟨e, he⟩ := herr
        cases he
      · split_ifs at h
        · cases h
          rfl
        · cases h
          rfl

/-- Witness of C11, amended: chain 1 is absent from the sample registry, and the errors of
the three functions print the chain ID 1; chain 11 resolves, and its hash-mismatch error
prints no chain ID. -/
theorem LoadError_printedChainID_witness :
    ((SystemConfigAddr sampleRegistry 1).2 = some (.unknownChain 1) ∧
      LoadOPStackChainConfig sampleRegistry sampleTimes 1 = .error (.unknownChain 1) ∧
      sampleRegistry.OPChains 1 = none ∧
      LoadOPStackGenesis sampleRegistry sampleTimes sampleHash 1 = .error (.unknownChain 1) ∧
      (LoadError.unknownChain 1).printedChainID = some 1) ∧
    (LoadOPStackGenesis sampleRegistry sampleTimes sampleHash 11 =
        .error (.genesisHashMismatch (Hash.fill 34) (Hash.fill 17)) ∧
      (∃ cfg, LoadOPStackChainConfig sampleRegistry sampleTimes 11 = .ok cfg) ∧
      (LoadError.genesisHashMismatch (Hash.fill 34) (Hash.fill 17)).printedChainID = none) :=
  ⟨⟨by decide, by decide, by decide, by decide,
    (LoadError_printedChainID sampleRegistry sampleTimes sampleHash 1 (.unknownChain 1)).1
      (by decide)⟩,
   ⟨by decide,
    (LoadOPStackChainConfig_ok_iff sampleRegistry sampleTimes 11).2
      ⟨sampleChain 11 "mainnet" (some [1, 2]), by decide, by decide⟩,
    ((LoadError_printedChainID sampleRegistry sampleTimes sampleHash 11
      (.genesisHashMismatch (Hash.fill 34) (Hash.fill 17))).2.2 (by decide)).2
      ((LoadOPStackChainConfig_ok_iff sampleRegistry sampleTimes 11).2
        ⟨sampleChain 11 "mainnet" (some [1, 2]), by decide, by decide⟩)⟩⟩

/-- C12: when `LoadOPStackGenesis` fails with the hash-mismatch error, the first value the
error carries is the hash computed from the candidate genesis, the second is the registry's
expected hash of the chain, and the two differ. -/
theorem LoadOPStackGenesis_hash_mismatch_operands (reg : Registry) (rt : RegolithTimes)
    (blockHash : Genesis → Hash) (chainID : Nat) (computed expected : Hash)
    (h : LoadOPStackGenesis reg rt blockHash chainID =
      .error (.genesisHashMismatch computed expected)) :
    ∃ chConfig cfg, reg.OPChains chainID = some chConfig ∧
      LoadOPStackChainConfig reg rt chainID = .ok cfg ∧
      computed = blockHash (candidateGenesis cfg chConfig) ∧
      expected = chConfig.Genesis.L2.Hash ∧ computed ≠ expected := by
  cases hcfg : LoadOPStackChainConfig reg rt chainID with
  | error e =>
    rw [LoadOPStackGenesis_of_config_error reg rt blockHash chainID e hcfg] at h
    cases hc : reg.OPChains chainID with
    | none => simp [hc] at h
    | some chConfig => simp [hc] at h
  | ok cfg =>
    obtain ⟨chConfig, hc, _⟩ := (LoadOPStackChainConfig_ok_iff reg rt chainID).1 ⟨cfg, hcfg⟩
    rw [LoadOPStackGenesis_of_config reg rt blockHash chainID chConfig cfg hc hcfg] at h
    split_ifs at h with h1 h2
    · cases h
    · injection h with h
      injection h with hcomputed hexpected
      refine ⟨chConfig, cfg, hc, rfl, hcomputed.symm, hexpected.symm, ?_⟩
      rw [← hcomputed, ← hexpected]
      exact h2

/-- Witness of C12: chain 11 of the sample registry fails with a hash-mismatch error that
carries the computed hash (all `0x22`) and then the expected hash (all `0x11`). -/
theorem LoadOPStackGenesis_hash_mismatch_operands_witness :
    LoadOPStackGenesis sampleRegistry sampleTimes sampleHash 11 =
      .error (.genesisHashMismatch (Hash.fill 34) (Hash.fill 17)) ∧
    ∃ chConfig cfg, sampleRegistry.OPChains 11 = some chConfig ∧
      LoadOPStackChainConfig sampleRegistry sampleTimes 11 = .ok cfg ∧
      Hash.fill 34 = sampleHash (candidateGenesis cfg chConfig) ∧
      Hash.fill 17 = chConfig.Genesis.L2.Hash ∧ Hash.fill 34 ≠ Hash.fill 17 :=
  ⟨by decide,
   LoadOPStackGenesis_hash_mismatch_operands sampleRegistry sampleTimes sampleHash 11
     (Hash.fill 34) (Hash.fill 17) (by decide)⟩

/-! ## The genesis that `LoadOPStackGenesis` returns -/

/-- C13: a genesis returned by `LoadOPStackGenesis` has the timestamp of the chain's
registered genesis L2 time, gas limit 30000000, the registry's extra-data override when
there is one and the 7 bytes `"BEDROCK"` otherwise (at most 32 bytes in both cases), every
other header field zero or unset, no state allocation, and as config the config that
`LoadOPStackChainConfig` returns for the same chain ID. -/
theorem LoadOPStackGenesis_ok_fields (reg : Registry) (rt : RegolithTimes)
    (blockHash : Genesis → Hash) (chainID : Nat) (genesis : Genesis)
    (h : LoadOPStackGenesis reg rt blockHash chainID = .ok genesis) :
    ∃ chConfig cfg, reg.OPChains chainID = some chConfig ∧
      LoadOPStackChainConfig reg rt chainID = .ok cfg ∧
      genesis.Timestamp = chConfig.Genesis.L2Time ∧
      genesis.GasLimit = 30000000 ∧
      genesis.ExtraData = chConfig.Genesis.ExtraData.getD bedrockExtraData ∧
      bedrockExtraData.map (fun b => Char.ofNat b.val) = "BEDROCK".toList ∧
      bedrockExtraData.length = 7 ∧
      genesis.ExtraData.length ≤ 32 ∧
      genesis.Nonce = 0 ∧ genesis.Number = 0 ∧ genesis.GasUsed = 0 ∧
      genesis.Coinbase = Address.zero ∧ genesis.Mixhash = Hash.zero ∧
      genesis.ParentHash = Hash.zero ∧ genesis.Difficulty = none ∧
      genesis.BaseFee = none ∧ genesis.Alloc = none ∧
      genesis.Config = some cfg := by
  cases hcfg : LoadOPStackChainConfig reg rt chainID with
  | error e =>
    rw [LoadOPStackGenesis_of_config_error reg rt blockHash chainID e hcfg] at h
    cases hc : reg.OPChains chainID with
    | none => simp [hc] at h
    | some chConfig => simp [hc] at h
  | ok cfg =>
    obtain ⟨chConfig, hc, _⟩ := (LoadOPStackChainConfig_ok_iff reg rt chainID).1 ⟨cfg, hcfg⟩
    rw [LoadOPStackGenesis_of_config reg rt blockHash chainID chConfig cfg hc hcfg] at h
    split_ifs at h with h1 h2
    cases h
    have hextra : (candidateGenesis cfg chConfig).ExtraData =
        chConfig.Genesis.ExtraData.getD bedrockExtraData := by
      unfold candidateGenesis
      cases chConfig.Genesis.ExtraData <;> rfl
    exact ⟨chConfig, cfg, hc, rfl, rfl, rfl, hextra, by decide, by decide, by omega,
      rfl, rfl, rfl, rfl, rfl, rfl, rfl, rfl, rfl, rfl⟩

/-- Witness of C13: chain 7 of the sample registry loads. -/
theorem LoadOPStackGenesis_ok_fields_witness :
    ∃ genesis, LoadOPStackGenesis sampleRegistry sampleTimes sampleHash 7 = .ok genesis ∧
      genesis.Timestamp = 1686068903 ∧ genesis.GasLimit = 30000000 ∧
      genesis.ExtraData = bedrockExtraData ∧ genesis.Alloc = none := by
  obtain ⟨cfg, hcfg⟩ := (LoadOPStackChainConfig_ok_iff sampleRegistry sampleTimes 7).2
    ⟨sampleChain 7 "mainnet" none, by decide, by decide⟩
  have hg := LoadOPStackGenesis_of_config sampleRegistry sampleTimes sampleHash 7
    (sampleChain 7 "mainnet" none) cfg (by decide) hcfg
  have hlen : ¬ 32 < (candidateGenesis cfg (sampleChain 7 "mainnet" none)).ExtraData.length := by
    show ¬ 32 < bedrockExtraData.length
    decide
  have hhash : sampleHash (candidateGenesis cfg (sampleChain 7 "mainnet" none)) =
      (sampleChain 7 "mainnet" none).Genesis.L2.Hash := by
    show (if (30000000 : Nat) = 30000000 ∧ bedrockExtraData.length = 7 then Hash.fill 17
      else Hash.fill 34) = Hash.fill 17
    decide
  rw [if_neg hlen, if_pos hhash] at hg
  obtain ⟨chConfig, cfg2, hc, _, ht, hgl, hx, _, _, _, _, _, _, _, _, _, _, _, ha, _⟩ :=
    LoadOPStackGenesis_ok_fields sampleRegistry sampleTimes sampleHash 7 _ hg
  have hch : chConfig = sampleChain 7 "mainnet" none := by
    have h7 : sampleRegistry.OPChains 7 = some (sampleChain 7 "mainnet" none) := by decide
    rw [h7] at hc
    exact (Option.some.inj hc).symm
  subst hch
  exact ⟨_, hg, ht, hgl, hx, ha⟩

/-! ## `SystemConfigAddr` -/

/-- C14: `SystemConfigAddr` returns the registry's system-config address of the chain and
no error when the chain is registered; it returns the zero address with the unknown-chain
error if and only if the chain is not registered; and the result is the same for every
superchain table. -/
theorem SystemConfigAddr_spec (reg : Registry) (chainID : Nat) :
    (∀ chConfig, reg.OPChains chainID = some chConfig →
      SystemConfigAddr reg chainID = (chConfig.SystemConfigAddr, none)) ∧
    (SystemConfigAddr reg chainID = (Address.zero, some (.unknownChain chainID)) ↔
      reg.OPChains chainID = none) ∧
    (∀ superchains,
      SystemConfigAddr ⟨reg.OPChains, superchains⟩ chainID = SystemConfigAddr reg chainID) := by
  unfold SystemConfigAddr
  cases hc : reg.OPChains chainID with
  | none => simp [hc]
  | some chConfig => simp [hc]

/-- Witness of C14: chain 7 of the sample registry is registered, chain 1 is not. -/
theorem SystemConfigAddr_spec_witness :
    sampleRegistry.OPChains 7 = some (sampleChain 7 "mainnet" none) ∧
    SystemConfigAddr sampleRegistry 7 = (⟨List.replicate 20 7, rfl⟩, none) ∧
    sampleRegistry.OPChains 1 = none ∧
    SystemConfigAddr sampleRegistry 1 = (Address.zero, some (.unknownChain 1)) :=
  ⟨by decide,
   (SystemConfigAddr_spec sampleRegistry 7).1 (sampleChain 7 "mainnet" none) (by decide),
   by decide,
   (SystemConfigAddr_spec sampleRegistry 1).2.1.2 (by decide)⟩

/-! ## Frame, determinism and the chain ID of the config -/

/-- C15: an override leaves the fields it does not name at their baseline values. For chain
10 the Regolith time stays 0, elasticity and denominator stay 6 and 50 and the nine block
activations before Berlin stay 0; for chain 420 the denominator stays 50 and the ten block
activations up to and including Berlin stay 0; for chain 84531 all fifteen block activations
stay 0 and elasticity and denominator stay 6 and 50; for all three the terminal total
difficulty stays 0 with its passed flag set, DAO-fork support stays false and the DAO fork
block, Ethash and Clique stay unset. -/
theorem LoadOPStackChainConfig_overrides_frame (reg : Registry) (rt : RegolithTimes)
    (cfg : ChainConfig) :
    (LoadOPStackChainConfig reg rt 10 = .ok cfg →
      cfg.RegolithTime = some 0 ∧
      cfg.Optimism = some { EIP1559Elasticity := 6, EIP1559Denominator := 50 } ∧
      (forkBlocks cfg).take 9 = List.replicate 9 (some 0) ∧
      cfg.TerminalTotalDifficulty = some 0 ∧ cfg.TerminalTotalDifficultyPassed = true ∧
      cfg.DAOForkSupport = false ∧ cfg.DAOForkBlock = none ∧ cfg.Ethash = none ∧
      cfg.Clique = none) ∧
    (LoadOPStackChainConfig reg rt 420 = .ok cfg →
      cfg.Optimism.map (fun o => o.EIP1559Denominator) = some 50 ∧
      (forkBlocks cfg).take 10 = List.replicate 10 (some 0) ∧
      cfg.TerminalTotalDifficulty = some 0 ∧ cfg.TerminalTotalDifficultyPassed = true ∧
      cfg.DAOForkSupport = false ∧ cfg.DAOForkBlock = none ∧ cfg.Ethash = none ∧
      cfg.Clique = none) ∧
    (LoadOPStackChainConfig reg rt 84531 = .ok cfg →
      forkBlocks cfg = List.replicate 15 (some 0) ∧
      cfg.Optimism = some { EIP1559Elasticity := 6, EIP1559Denominator := 50 } ∧
      cfg.TerminalTotalDifficulty = some 0 ∧ cfg.TerminalTotalDifficultyPassed = true ∧
      cfg.DAOForkSupport = false ∧ cfg.DAOForkBlock = none ∧ cfg.Ethash = none ∧
      cfg.Clique = none) := by
  refine ⟨?_, ?_, ?_⟩ <;>
  · intro h
    unfold LoadOPStackChainConfig at h
    split at h
    · cases h
    · split at h
      · cases h
      · simp only [Nat.reduceEqDiff, if_true, if_false, Except.ok.injEq] at h
        subst h
        simp [Big0, forkBlocks]

/-- Witness of C15: in the sample registry the chains 10, 420 and 84531 resolve, and the
fields their overrides do not name hold the baseline values. -/
theorem LoadOPStackChainConfig_overrides_frame_witness :
    (∃ cfg, LoadOPStackChainConfig sampleRegistry sampleTimes 10 = .ok cfg ∧
      cfg.RegolithTime = some 0 ∧ cfg.HomesteadBlock = some 0 ∧
      cfg.TerminalTotalDifficulty = some 0) ∧
    (∃ cfg, LoadOPStackChainConfig sampleRegistry sampleTimes 420 = .ok cfg ∧
      cfg.Optimism.map (fun o => o.EIP1559Denominator) = some 50 ∧
      cfg.BerlinBlock = some 0) ∧
    (∃ cfg, LoadOPStackChainConfig sampleRegistry sampleTimes 84531 = .ok cfg ∧
      forkBlocks cfg = List.replicate 15 (some 0)) := by
  obtain ⟨c1, h1⟩ := (LoadOPStackChainConfig_ok_iff sampleRegistry sampleTimes 10).2
    ⟨sampleChain 10 "mainnet" none, by decide, by decide⟩
  obtain ⟨c2, h2⟩ := (LoadOPStackChainConfig_ok_iff sampleRegistry sampleTimes 420).2
    ⟨sampleChain 420 "mainnet" none, by decide, by decide⟩
  obtain ⟨c3, h3⟩ := (LoadOPStackChainConfig_ok_iff sampleRegistry sampleTimes 84531).2
    ⟨sampleChain 84531 "mainnet" none, by decide, by decide⟩
  have a := (LoadOPStackChainConfig_overrides_frame sampleRegistry sampleTimes c1).1 h1
  have b := (LoadOPStackChainConfig_overrides_frame sampleRegistry sampleTimes c2).2.1 h2
  have c := (LoadOPStackChainConfig_overrides_frame sampleRegistry sampleTimes c3).2.2 h3
  refine ⟨⟨c1, h1, a.1, ?_, a.2.2.2.1⟩, ⟨c2, h2, b.1, ?_⟩, ⟨c3, h3, c.1⟩⟩
  · have h9 := a.2.2.1
    simp only [forkBlocks, List.take_succ_cons, List.replicate_succ, List.cons.injEq] at h9
    exact h9.1
  · have h10 := b.2.1
    simp only [forkBlocks, List.take_succ_cons, List.replicate_succ, List.cons.injEq] at h10
    exact h10.2.2.2.2.2.2.2.2.2.1

/-- Reading a list extended at its end, at an address past the old end. -/
theorem getElem_opt_append_add {α : Type} (l xs : List α) (k : Nat) :
    (l ++ xs)[l.length + k]? = xs[k]? := by
  rw [List.getElem?_append_right (by omega)]
  congr 1
  omega

/-- Reading a list extended at its end, at the first new address. -/
theorem getElem_opt_append_length {α : Type} (l xs : List α) :
    (l ++ xs)[l.length]? = xs[0]? := by
  simpa using getElem_opt_append_add l xs 0

/-- Overwriting the first new element of an extended list. -/
theorem set_append_length {α : Type} (l : List α) (x y : α) (xs : List α) :
    (l ++ x :: xs).set l.length y = l ++ y :: xs := by
  induction l with
  | nil => rfl
  | cons a l ih => simp [List.set, ih]

/-- The write of line 69 to the `OptimismConfig` that was allocated last. -/
theorem setEIP1559Elasticity_fresh (reg : Registry) (rt : RegolithTimes) (big0 : Int)
    (bs : List Int) (us : List Nat) (os : List OptimismConfig) (o : OptimismConfig) (v : Nat) :
    Memory.setEIP1559Elasticity os.length v ⟨reg, rt, big0, bs, us, os ++ [o]⟩ =
      ⟨reg, rt, big0, bs, us, os ++ [{ o with EIP1559Elasticity := v }]⟩ := by
  unfold Memory.setEIP1559Elasticity
  simp [getElem_opt_append_length, set_append_length]

/-- The write of line 69 when an earlier call has allocated an `OptimismConfig` before. -/
theorem setEIP1559Elasticity_fresh_succ (reg : Registry) (rt : RegolithTimes) (big0 : Int)
    (bs : List Int) (us : List Nat) (os : List OptimismConfig) (a o : OptimismConfig)
    (v : Nat) :
    Memory.setEIP1559Elasticity (os.length + 1) v ⟨reg, rt, big0, bs, us, os ++ [a, o]⟩ =
      ⟨reg, rt, big0, bs, us, os ++ [a, { o with EIP1559Elasticity := v }]⟩ := by
  have h := setEIP1559Elasticity_fresh reg rt big0 bs us (os ++ [a]) o v
  simpa using h

/-- A call leaves the package-level state as it found it. -/
theorem LoadOPStackChainConfigOnMemory_package (chainID : Nat) (m : Memory) :
    (LoadOPStackChainConfigOnMemory chainID m).2.reg = m.reg ∧
    (LoadOPStackChainConfigOnMemory chainID m).2.rt = m.rt ∧
    (LoadOPStackChainConfigOnMemory chainID m).2.Big0 = m.Big0 := by
  unfold LoadOPStackChainConfigOnMemory
  split
  · exact ⟨rfl, rfl, rfl⟩
  · split
    · exact ⟨rfl, rfl, rfl⟩
    · split_ifs
      · simp [setEIP1559Elasticity_fresh]
      · exact ⟨rfl, rfl, rfl⟩
      · exact ⟨rfl, rfl, rfl⟩
      · exact ⟨rfl, rfl, rfl⟩

/-- The by-value function `LoadOPStackChainConfig` is the function on memory read through
its pointers, as long as the `big.Int` behind `common.Big0` holds 0. -/
theorem LoadOPStackChainConfigOnMemory_load (chainID : Nat) (m : Memory) (h0 : m.Big0 = 0) :
    loadResult (LoadOPStackChainConfigOnMemory chainID m).2
        (LoadOPStackChainConfigOnMemory chainID m).1 =
      LoadOPStackChainConfig m.reg m.rt chainID := by
  cases hc : m.reg.OPChains chainID with
  | none => simp [LoadOPStackChainConfigOnMemory, LoadOPStackChainConfig, hc, loadResult]
  | some chConfig =>
    cases hs : m.reg.Superchains chConfig.Superchain with
    | none => simp [LoadOPStackChainConfigOnMemory, LoadOPStackChainConfig, hc, hs, loadResult]
    | some sc =>
      by_cases h420 : chainID = 420
      · subst h420
        simp only [LoadOPStackChainConfigOnMemory, LoadOPStackChainConfig, hc, hs,
          setEIP1559Elasticity_fresh, setEIP1559Elasticity_fresh_succ, loadResult,
          ChainConfigRef.load, Memory.loadBigInt, Memory.loadUint64,
          Memory.loadOptimismConfig, Memory.readBigInt, Memory.readUint64,
          List.append_assoc, List.length_append, List.length_cons, List.length_nil,
          List.cons_append, List.nil_append, Nat.add_assoc, Nat.reduceAdd,
          getElem_opt_append_add, getElem_opt_append_length, Option.some_bind,
          Option.none_bind, Nat.reduceEqDiff, if_true, if_false, List.getElem?_cons_succ,
          List.getElem?_cons_zero]
        simp [h0, Big0]
      · by_cases h10 : chainID = 10
        · subst h10
          simp only [LoadOPStackChainConfigOnMemory, LoadOPStackChainConfig, hc, hs,
            setEIP1559Elasticity_fresh, setEIP1559Elasticity_fresh_succ, loadResult,
            ChainConfigRef.load, Memory.loadBigInt, Memory.loadUint64,
            Memory.loadOptimismConfig, Memory.readBigInt, Memory.readUint64,
            List.append_assoc, List.length_append, List.length_cons, List.length_nil,
            List.cons_append, List.nil_append, Nat.add_assoc, Nat.reduceAdd,
            getElem_opt_append_add, getElem_opt_append_length, Option.some_bind,
            Option.none_bind, Nat.reduceEqDiff, if_true, if_false, List.getElem?_cons_succ,
            List.getElem?_cons_zero]
          simp [h0, Big0]
        · by_cases h84531 : chainID = 84531
          · subst h84531
            simp only [LoadOPStackChainConfigOnMemory, LoadOPStackChainConfig, hc, hs,
              setEIP1559Elasticity_fresh, setEIP1559Elasticity_fresh_succ, loadResult,
              ChainConfigRef.load, Memory.loadBigInt, Memory.loadUint64,
              Memory.loadOptimismConfig, Memory.readBigInt, Memory.readUint64,
              List.append_assoc, List.length_append, List.length_cons, List.length_nil,
              List.cons_append, List.nil_append, Nat.add_assoc, Nat.reduceAdd,
              getElem_opt_append_add, getElem_opt_append_length, Option.some_bind,
              Option.none_bind, Nat.reduceEqDiff, if_true, if_false, List.getElem?_cons_succ,
              List.getElem?_cons_zero]
            simp [h0, Big0]
          · simp only [LoadOPStackChainConfigOnMemory, LoadOPStackChainConfig, hc, hs, h420, h10, h84531,
              setEIP1559Elasticity_fresh, setEIP1559Elasticity_fresh_succ, loadResult,
              ChainConfigRef.load, Memory.loadBigInt, Memory.loadUint64,
              Memory.loadOptimismConfig, Memory.readBigInt, Memory.readUint64,
              List.append_assoc, List.length_append, List.length_cons, List.length_nil,
              List.cons_append, List.nil_append, Nat.add_assoc, Nat.reduceAdd,
              getElem_opt_append_add, getElem_opt_append_length, Option.some_bind,
              Option.none_bind, Nat.reduceEqDiff, if_true, if_false, List.getElem?_cons_succ,
              List.getElem?_cons_zero]
            simp [h0, Big0]

/-- After two calls with the same chain ID, the second in the memory the first left, the
two results read in the final memory are identical. -/
theorem LoadOPStackChainConfigOnMemory_twice (chainID : Nat) (m : Memory) :
    loadResult
        (LoadOPStackChainConfigOnMemory chainID (LoadOPStackChainConfigOnMemory chainID m).2).2
        (LoadOPStackChainConfigOnMemory chainID (LoadOPStackChainConfigOnMemory chainID m).2).1 =
      loadResult
        (LoadOPStackChainConfigOnMemory chainID (LoadOPStackChainConfigOnMemory chainID m).2).2
        (LoadOPStackChainConfigOnMemory chainID m).1 := by
  cases hc : m.reg.OPChains chainID with
  | none => simp [LoadOPStackChainConfigOnMemory, hc, loadResult]
  | some chConfig =>
    cases hs : m.reg.Superchains chConfig.Superchain with
    | none => simp [LoadOPStackChainConfigOnMemory, hc, hs, loadResult]
    | some sc =>
      by_cases h420 : chainID = 420
      · subst h420
        simp only [LoadOPStackChainConfigOnMemory, LoadOPStackChainConfig, hc, hs,
          setEIP1559Elasticity_fresh, setEIP1559Elasticity_fresh_succ, loadResult,
          ChainConfigRef.load, Memory.loadBigInt, Memory.loadUint64,
          Memory.loadOptimismConfig, Memory.readBigInt, Memory.readUint64,
          List.append_assoc, List.length_append, List.length_cons, List.length_nil,
          List.cons_append, List.nil_append, Nat.add_assoc, Nat.reduceAdd,
          getElem_opt_append_add, getElem_opt_append_length, Option.some_bind,
          Option.none_bind, Nat.reduceEqDiff, if_true, if_false, List.getElem?_cons_succ,
          List.getElem?_cons_zero]
      · by_cases h10 : chainID = 10
        · subst h10
          simp only [LoadOPStackChainConfigOnMemory, LoadOPStackChainConfig, hc, hs,
            setEIP1559Elasticity_fresh, setEIP1559Elasticity_fresh_succ, loadResult,
            ChainConfigRef.load, Memory.loadBigInt, Memory.loadUint64,
            Memory.loadOptimismConfig, Memory.readBigInt, Memory.readUint64,
            List.append_assoc, List.length_append, List.length_cons, List.length_nil,
            List.cons_append, List.nil_append, Nat.add_assoc, Nat.reduceAdd,
            getElem_opt_append_add, getElem_opt_append_length, Option.some_bind,
            Option.none_bind, Nat.reduceEqDiff, if_true, if_false, List.getElem?_cons_succ,
            List.getElem?_cons_zero]
        · by_cases h84531 : chainID = 84531
          · subst h84531
            simp only [LoadOPStackChainConfigOnMemory, LoadOPStackChainConfig, hc, hs,
              setEIP1559Elasticity_fresh, setEIP1559Elasticity_fresh_succ, loadResult,
              ChainConfigRef.load, Memory.loadBigInt, Memory.loadUint64,
              Memory.loadOptimismConfig, Memory.readBigInt, Memory.readUint64,
              List.append_assoc, List.length_append, List.length_cons, List.length_nil,
              List.cons_append, List.nil_append, Nat.add_assoc, Nat.reduceAdd,
              getElem_opt_append_add, getElem_opt_append_length, Option.some_bind,
              Option.none_bind, Nat.reduceEqDiff, if_true, if_false, List.getElem?_cons_succ,
              List.getElem?_cons_zero]
          · simp only [LoadOPStackChainConfigOnMemory, LoadOPStackChainConfig, hc, hs, h420, h10, h84531,
              setEIP1559Elasticity_fresh, setEIP1559Elasticity_fresh_succ, loadResult,
              ChainConfigRef.load, Memory.loadBigInt, Memory.loadUint64,
              Memory.loadOptimismConfig, Memory.readBigInt, Memory.readUint64,
              List.append_assoc, List.length_append, List.length_cons, List.length_nil,
              List.cons_append, List.nil_append, Nat.add_assoc, Nat.reduceAdd,
              getElem_opt_append_add, getElem_opt_append_length, Option.some_bind,
              Option.none_bind, Nat.reduceEqDiff, if_true, if_false, List.getElem?_cons_succ,
              List.getElem?_cons_zero]

/-- The second call does not change what the first result reads. -/
theorem LoadOPStackChainConfigOnMemory_kept (chainID : Nat) (m : Memory) :
    loadResult
        (LoadOPStackChainConfigOnMemory chainID (LoadOPStackChainConfigOnMemory chainID m).2).2
        (LoadOPStackChainConfigOnMemory chainID m).1 =
      loadResult (LoadOPStackChainConfigOnMemory chainID m).2
        (LoadOPStackChainConfigOnMemory chainID m).1 := by
  cases hc : m.reg.OPChains chainID with
  | none => simp [LoadOPStackChainConfigOnMemory, hc, loadResult]
  | some chConfig =>
    cases hs : m.reg.Superchains chConfig.Superchain with
    | none => simp [LoadOPStackChainConfigOnMemory, hc, hs, loadResult]
    | some sc =>
      by_cases h420 : chainID = 420
      · subst h420
        simp only [LoadOPStackChainConfigOnMemory, LoadOPStackChainConfig, hc, hs,
          setEIP1559Elasticity_fresh, setEIP1559Elasticity_fresh_succ, loadResult,
          ChainConfigRef.load, Memory.loadBigInt, Memory.loadUint64,
          Memory.loadOptimismConfig, Memory.readBigInt, Memory.readUint64,
          List.append_assoc, List.length_append, List.length_cons, List.length_nil,
          List.cons_append, List.nil_append, Nat.add_assoc, Nat.reduceAdd,
          getElem_opt_append_add, getElem_opt_append_length, Option.some_bind,
          Option.none_bind, Nat.reduceEqDiff, if_true, if_false, List.getElem?_cons_succ,
          List.getElem?_cons_zero]
      · by_cases h10 : chainID = 10
        · subst h10
          simp only [LoadOPStackChainConfigOnMemory, LoadOPStackChainConfig, hc, hs,
            setEIP1559Elasticity_fresh, setEIP1559Elasticity_fresh_succ, loadResult,
            ChainConfigRef.load, Memory.loadBigInt, Memory.loadUint64,
            Memory.loadOptimismConfig, Memory.readBigInt, Memory.readUint64,
            List.append_assoc, List.length_append, List.length_cons, List.length_nil,
            List.cons_append, List.nil_append, Nat.add_assoc, Nat.reduceAdd,
            getElem_opt_append_add, getElem_opt_append_length, Option.some_bind,
            Option.none_bind, Nat.reduceEqDiff, if_true, if_false, List.getElem?_cons_succ,
            List.getElem?_cons_zero]
        · by_cases h84531 : chainID = 84531
          · subst h84531
            simp only [LoadOPStackChainConfigOnMemory, LoadOPStackChainConfig, hc, hs,
              setEIP1559Elasticity_fresh, setEIP1559Elasticity_fresh_succ, loadResult,
              ChainConfigRef.load, Memory.loadBigInt, Memory.loadUint64,
              Memory.loadOptimismConfig, Memory.readBigInt, Memory.readUint64,
              List.append_assoc, List.length_append, List.length_cons, List.length_nil,
              List.cons_append, List.nil_append, Nat.add_assoc, Nat.reduceAdd,
              getElem_opt_append_add, getElem_opt_append_length, Option.some_bind,
              Option.none_bind, Nat.reduceEqDiff, if_true, if_false, List.getElem?_cons_succ,
              List.getElem?_cons_zero]
          · simp only [LoadOPStackChainConfigOnMemory, LoadOPStackChainConfig, hc, hs, h420, h10, h84531,
              setEIP1559Elasticity_fresh, setEIP1559Elasticity_fresh_succ, loadResult,
              ChainConfigRef.load, Memory.loadBigInt, Memory.loadUint64,
              Memory.loadOptimismConfig, Memory.readBigInt, Memory.readUint64,
              List.append_assoc, List.length_append, List.length_cons, List.length_nil,
              List.cons_append, List.nil_append, Nat.add_assoc, Nat.reduceAdd,
              getElem_opt_append_add, getElem_opt_append_length, Option.some_bind,
              Option.none_bind, Nat.reduceEqDiff, if_true, if_false, List.getElem?_cons_succ,
              List.getElem?_cons_zero]

/-- C16: `LoadOPStackChainConfig` is pure given a fixed registry snapshot. On explicit
memory, with the pointers into package-level state kept (`common.Big0`, the addresses of the
two Regolith variables): a call writes none of the package-level state, neither the registry
maps nor the Regolith variables nor the `big.Int` behind `common.Big0`; and of two calls
with the same chain ID, the second running in the memory the first left, the two results
read in the final memory are identical, the same error or configs equal in every field,
and equal to what the first result read when it was returned. -/
theorem LoadOPStackChainConfigOnMemory_pure (chainID : Nat) (m : Memory) :
    (LoadOPStackChainConfigOnMemory chainID m).2.reg = m.reg ∧
    (LoadOPStackChainConfigOnMemory chainID m).2.rt = m.rt ∧
    (LoadOPStackChainConfigOnMemory chainID m).2.Big0 = m.Big0 ∧
    loadResult
        (LoadOPStackChainConfigOnMemory chainID (LoadOPStackChainConfigOnMemory chainID m).2).2
        (LoadOPStackChainConfigOnMemory chainID (LoadOPStackChainConfigOnMemory chainID m).2).1 =
      loadResult
        (LoadOPStackChainConfigOnMemory chainID (LoadOPStackChainConfigOnMemory chainID m).2).2
        (LoadOPStackChainConfigOnMemory chainID m).1 ∧
    loadResult
        (LoadOPStackChainConfigOnMemory chainID (LoadOPStackChainConfigOnMemory chainID m).2).2
        (LoadOPStackChainConfigOnMemory chainID m).1 =
      loadResult (LoadOPStackChainConfigOnMemory chainID m).2
        (LoadOPStackChainConfigOnMemory chainID m).1 :=
  ⟨(LoadOPStackChainConfigOnMemory_package chainID m).1,
   (LoadOPStackChainConfigOnMemory_package chainID m).2.1,
   (LoadOPStackChainConfigOnMemory_package chainID m).2.2,
   LoadOPStackChainConfigOnMemory_twice chainID m,
   LoadOPStackChainConfigOnMemory_kept chainID m⟩

/-- Witness of C16: two calls for chain 420 on the sample memory. The two results hold
different pointers and read as the same config; the heaps have grown, the package-level
state has not changed. -/
theorem LoadOPStackChainConfigOnMemory_pure_witness :
    ((LoadOPStackChainConfigOnMemory 420 sampleMemory).1.toOption.bind
        (fun c => c.ChainID) = some (.heap 1)) ∧
    ((LoadOPStackChainConfigOnMemory 420
          (LoadOPStackChainConfigOnMemory 420 sampleMemory).2).1.toOption.bind
        (fun c => c.ChainID) = some (.heap 7)) ∧
    (LoadOPStackChainConfigOnMemory 420 sampleMemory).2.bigInts =
      [99, 420, 4061224, 4061224, 4061224, 4061224, 4061224] ∧
    (LoadOPStackChainConfigOnMemory 420 sampleMemory).2.optimismConfigs =
      [⟨1, 2⟩, ⟨10, 50⟩] ∧
    (LoadOPStackChainConfigOnMemory 420 sampleMemory).2.Big0 = sampleMemory.Big0 ∧
    loadResult
        (LoadOPStackChainConfigOnMemory 420 (LoadOPStackChainConfigOnMemory 420 sampleMemory).2).2
        (LoadOPStackChainConfigOnMemory 420 (LoadOPStackChainConfigOnMemory 420 sampleMemory).2).1 =
      loadResult
        (LoadOPStackChainConfigOnMemory 420 (LoadOPStackChainConfigOnMemory 420 sampleMemory).2).2
        (LoadOPStackChainConfigOnMemory 420 sampleMemory).1 :=
  ⟨by decide, by decide, by decide, by decide,
   (LoadOPStackChainConfigOnMemory_pure 420 sampleMemory).2.2.1,
   (LoadOPStackChainConfigOnMemory_pure 420 sampleMemory).2.2.2.1⟩

/-- C17: the config depends on the registry only through the presence of the chain and of
its superchain group: for two registries in both of which the chain and its superchain group
are registered, whatever the entries hold, the two calls return the same config. -/
theorem LoadOPStackChainConfig_contents_irrelevant (reg reg2 : Registry) (rt : RegolithTimes)
    (chainID : Nat) (chConfig chConfig2 : OPChainConfig)
    (hc : reg.OPChains chainID = some chConfig)
    (hs : (reg.Superchains chConfig.Superchain).isSome = true)
    (hc2 : reg2.OPChains chainID = some chConfig2)
    (hs2 : (reg2.Superchains chConfig2.Superchain).isSome = true) :
    ∃ cfg, LoadOPStackChainConfig reg rt chainID = .ok cfg ∧
      LoadOPStackChainConfig reg2 rt chainID = .ok cfg := by
  unfold LoadOPStackChainConfig
  cases h1 : reg.Superchains chConfig.Superchain with
  | none => simp [h1] at hs
  | some sc =>
    cases h2 : reg2.Superchains chConfig2.Superchain with
    | none => simp [h2] at hs2
    | some sc2 =>
      simp only [hc, hc2, h1, h2]
      split_ifs <;> exact ⟨_, rfl, rfl⟩

/-- Witness of C17: chain 7 is registered in the sample registry and, with another genesis
time, extra-data, expected hash, address and superchain, in the second registry; the two
configs are equal. -/
theorem LoadOPStackChainConfig_contents_irrelevant_witness :
    (sampleRegistry.OPChains 7).isSome = true ∧ (otherRegistry.OPChains 7).isSome = true ∧
    sampleRegistry.OPChains 7 ≠ otherRegistry.OPChains 7 ∧
    sampleRegistry.Superchains "mainnet" ≠ otherRegistry.Superchains "testnet" ∧
    ∃ cfg, LoadOPStackChainConfig sampleRegistry sampleTimes 7 = .ok cfg ∧
      LoadOPStackChainConfig otherRegistry sampleTimes 7 = .ok cfg :=
  ⟨by decide, by decide, by decide, by decide,
   LoadOPStackChainConfig_contents_irrelevant sampleRegistry otherRegistry sampleTimes 7
     (sampleChain 7 "mainnet" none)
     { Name := "other", ChainID := 7, SystemConfigAddr := ⟨List.replicate 20 9, rfl⟩,
       Genesis := { L1 := ⟨Hash.fill 1, 5⟩, L2 := ⟨Hash.fill 51, 3⟩, L2Time := 42,
                    ExtraData := some [9, 9, 9] },
       Superchain := "testnet" }
     (by decide) (by decide) (by decide) (by decide)⟩

/-- C18: the `ChainID` field of a config returned by `LoadOPStackChainConfig` is the
requested chain ID as an integer, for every chain ID, and the config of a genesis returned
by `LoadOPStackGenesis` carries the requested chain ID too. -/
theorem LoadOPStackChainConfig_chainID_field (reg : Registry) (rt : RegolithTimes)
    (blockHash : Genesis → Hash) (chainID : Nat) :
    (∀ cfg, LoadOPStackChainConfig reg rt chainID = .ok cfg →
      cfg.ChainID = some (chainID : Int)) ∧
    (∀ genesis, LoadOPStackGenesis reg rt blockHash chainID = .ok genesis →
      ∃ cfg, genesis.Config = some cfg ∧ cfg.ChainID = some (chainID : Int)) := by
  have hres : ∀ cfg, LoadOPStackChainConfig reg rt chainID = .ok cfg →
      cfg.ChainID = some (chainID : Int) := by
    intro cfg h
    unfold LoadOPStackChainConfig at h
    split at h
    · cases h
    · split at h
      · cases h
      · split_ifs at h <;> cases h <;> rfl
  refine ⟨hres, ?_⟩
  intro genesis h
  cases hcfg : LoadOPStackChainConfig reg rt chainID with
  | error e =>
    rw [LoadOPStackGenesis_of_config_error reg rt blockHash chainID e hcfg] at h
    cases hc : reg.OPChains chainID with
    | none => simp [hc] at h
    | some chConfig => simp [hc] at h
  | ok cfg =>
    obtain ⟨chConfig, hc, _⟩ := (LoadOPStackChainConfig_ok_iff reg rt chainID).1 ⟨cfg, hcfg⟩
    rw [LoadOPStackGenesis_of_config reg rt blockHash chainID chConfig cfg hc hcfg] at h
    split_ifs at h with h1 h2
    cases h
    exact ⟨cfg, rfl, hres cfg hcfg⟩

/-- Witness of C18: the config of chain 420 of the sample registry has chain ID 420. -/
theorem LoadOPStackChainConfig_chainID_field_witness :
    ∃ cfg, LoadOPStackChainConfig sampleRegistry sampleTimes 420 = .ok cfg ∧
      cfg.ChainID = some 420 := by
  obtain ⟨cfg, hcfg⟩ := (LoadOPStackChainConfig_ok_iff sampleRegistry sampleTimes 420).2
    ⟨sampleChain 420 "mainnet" none, by decide, by decide⟩
  exact ⟨cfg, hcfg,
    (LoadOPStackChainConfig_chainID_field sampleRegistry sampleTimes sampleHash 420).1 cfg hcfg⟩

/-- C19: for a chain ID absent from the chain table `LoadOPStackGenesis` fails with the
plain unknown-chain error, the error the resolver gives for that ID, for every superchain
table and every hash function; and whenever `LoadOPStackGenesis` fails with the wrapping
"failed to load params.ChainConfig" error, the chain is registered and the wrapped error is
the resolver's unknown-superchain error. -/
theorem LoadOPStackGenesis_unknown_chain (reg : Registry) (rt : RegolithTimes)
    (blockHash : Genesis → Hash) (chainID : Nat) :
    (reg.OPChains chainID = none →
      LoadOPStackGenesis reg rt blockHash chainID = .error (.unknownChain chainID) ∧
      LoadOPStackChainConfig reg rt chainID = .error (.unknownChain chainID) ∧
      ∀ superchains blockHash2,
        LoadOPStackGenesis ⟨reg.OPChains, superchains⟩ rt blockHash2 chainID =
          .error (.unknownChain chainID)) ∧
    (∀ id err,
      LoadOPStackGenesis reg rt blockHash chainID = .error (.failedToLoadChainConfig id err) →
      id = chainID ∧ LoadOPStackChainConfig reg rt chainID = .error err ∧
      ∃ chConfig, reg.OPChains chainID = some chConfig ∧
        err = .unknownSuperchain chConfig.Superchain) := by
  constructor
  · intro hc
    refine ⟨?_, ?_, ?_⟩
    · unfold LoadOPStackGenesis
      simp [hc]
    · unfold LoadOPStackChainConfig
      simp [hc]
    · intro superchains blockHash2
      unfold LoadOPStackGenesis
      simp [hc]
  · intro id err h
    cases hcfg : LoadOPStackChainConfig reg rt chainID with
    | error e =>
      rw [LoadOPStackGenesis_of_config_error reg rt blockHash chainID e hcfg] at h
      cases hc : reg.OPChains chainID with
      | none => simp [hc] at h
      | some chConfig =>
        simp only [hc, Except.error.injEq, LoadError.failedToLoadChainConfig.injEq] at h
        obtain ⟨hid, he⟩ := h
        subst he
        refine ⟨hid.symm, rfl, chConfig, rfl, ?_⟩
        unfold LoadOPStackChainConfig at hcfg
        simp only [hc] at hcfg
        split at hcfg
        · cases hcfg
          rfl
        · split_ifs at hcfg
    | ok cfg =>
      obtain ⟨chConfig, hc, _⟩ := (LoadOPStackChainConfig_ok_iff reg rt chainID).1 ⟨cfg, hcfg⟩
      rw [LoadOPStackGenesis_of_config reg rt blockHash chainID chConfig cfg hc hcfg] at h
      split_ifs at h <;> cases h

/-- Witness of C19: chain 1 is absent from the sample registry and fails with the plain
unknown-chain error; chain 8 fails with the wrapping error around the unknown-superchain
error. -/
theorem LoadOPStackGenesis_unknown_chain_witness :
    (sampleRegistry.OPChains 1 = none ∧
      LoadOPStackGenesis sampleRegistry sampleTimes sampleHash 1 =
        .error (.unknownChain 1)) ∧
    (LoadOPStackGenesis sampleRegistry sampleTimes sampleHash 8 =
        .error (.failedToLoadChainConfig 8 (.unknownSuperchain "ghost")) ∧
      LoadOPStackChainConfig sampleRegistry sampleTimes 8 =
        .error (.unknownSuperchain "ghost")) :=
  ⟨⟨by decide,
    ((LoadOPStackGenesis_unknown_chain sampleRegistry sampleTimes sampleHash 1).1
      (by decide)).1⟩,
   ⟨by decide,
    ((LoadOPStackGenesis_unknown_chain sampleRegistry sampleTimes sampleHash 8).2 8
      (.unknownSuperchain "ghost") (by decide)).2.1⟩⟩

end Superchain
